import Mathlib

/-!
Verification of the core of the RotaInteligente repository.

The development shallowly embeds, directly from the TypeScript source:
  * the traffic-light phase simulator of
    `frontend/src/components/TrafficLightPopup.tsx` (`getPhaseAndRemaining`
    and the activation / deactivation behaviour of its `useEffect`),
  * the polling client `pollRoute` of the API service module and the
    poll-resolution continuation of `App.tsx`'s `handleAnalyze`,
  * the map layer registry of `MapView.tsx` (`addRouteLayers`,
    `addCongestionLayers`, `addSampleLayers`, `addTollLayers`,
    `addAccidentLayers`, `addTrafficLightLayers`, `rebuildLayers`) over a
    map-surface state that records the overlay source and layer
    identifiers in insertion (draw) order, plus the popup interaction
    handlers installed on the map.

Machine numbers in the source are JavaScript numbers; every quantity the
claims touch (durations, elapsed seconds, attempt counters, list lengths)
is a non-negative integer in the program, so they are modelled as `Nat`.
Geographic coordinates and other numeric payload fields are modelled as
`Rat`; they are carried through but never influence identifier logic.
-/

/- ───────────────────────── Phase simulator ───────────────────────── -/

/-- The three phases of `type LightPhase = 'green' | 'yellow' | 'red'`. -/
inductive LightPhase where
  | green
  | yellow
  | red
deriving DecidableEq, Repr

/-- Embedding of `getPhaseAndRemaining` from `TrafficLightPopup.tsx`
(lines 55-64): `pos = t % totalCycle`, then the three-way branch on
`pos < green_duration` and `pos < green_duration + yellow_duration`. -/
def getPhaseAndRemaining (green_duration yellow_duration red_duration t : Nat) :
    LightPhase × Nat :=
  let totalCycle := green_duration + yellow_duration + red_duration
  let pos := t % totalCycle
  if pos < green_duration then
    (LightPhase.green, green_duration - pos)
  else if pos < green_duration + yellow_duration then
    (LightPhase.yellow, green_duration + yellow_duration - pos)
  else
    (LightPhase.red, totalCycle - pos)

/-- The pure function of spec section 4.3, written from the spec's words:
`cycle = green + yellow + red`, `pos = elapsedSec mod cycle`;
`pos < green` gives Green with `green - pos`; `green ≤ pos < green+yellow`
gives Yellow with `green+yellow-pos`; otherwise Red with `cycle - pos`. -/
def computePhase (greenSec yellowSec redSec elapsedSec : Nat) : LightPhase × Nat :=
  let cycle := greenSec + yellowSec + redSec
  let pos := elapsedSec % cycle
  if pos < greenSec then
    (LightPhase.green, greenSec - pos)
  else if greenSec ≤ pos ∧ pos < greenSec + yellowSec then
    (LightPhase.yellow, greenSec + yellowSec - pos)
  else
    (LightPhase.red, cycle - pos)

/- ───────────────────────── Poll loop ───────────────────────── -/

/-- The four backend job statuses of the `RouteResult` interface. -/
inductive JobStatus where
  | pending
  | processing
  | completed
  | failed
deriving DecidableEq, Repr

/-- The slice of the `RouteResult` interface that the polling client and
the `handleAnalyze` continuation inspect: the status and the optional
`error` message, together with the `route_id` that identifies the result.
The payload arrays are irrelevant to the poll-loop control flow. -/
structure RouteResult where
  route_id : String
  status : JobStatus
  error : Option String
deriving DecidableEq, Repr

/-- Outcome of a `pollRoute` call: the returned terminal `RouteResult`,
or the thrown timeout error. -/
inductive PollOutcome where
  | success (r : RouteResult)
  | timeout
deriving DecidableEq, Repr

/-- Embedding of the `for` loop body of `pollRoute` (api service, lines
172-185).  `fetch i` is the response of the `i`-th `getRouteResult` call.
`i` is the loop counter, `remaining` the number of iterations the loop
may still perform.  The second component counts the fetches performed. -/
def pollRouteAux (fetch : Nat → RouteResult) : Nat → Nat → PollOutcome × Nat
  | _, 0 => (PollOutcome.timeout, 0)
  | i, remaining + 1 =>
    let result := fetch i
    if result.status = JobStatus.completed ∨ result.status = JobStatus.failed then
      (PollOutcome.success result, 1)
    else
      let rest := pollRouteAux fetch (i + 1) remaining
      (rest.1, rest.2 + 1)

/-- Embedding of `pollRoute(routeId, interval, maxAttempts)`: the backend
is abstracted as the sequence of its fetch responses; the sleep between
iterations carries no information.  Returns the outcome and the number of
fetches performed. -/
def pollRoute (fetch : Nat → RouteResult) (maxAttempts : Nat) : PollOutcome × Nat :=
  pollRouteAux fetch 0 maxAttempts

/-- A status is non-terminal when the loop keeps polling on it. -/
def nonTerminal (s : JobStatus) : Prop :=
  s = JobStatus.pending ∨ s = JobStatus.processing

instance (s : JobStatus) : Decidable (nonTerminal s) := by
  unfold nonTerminal; infer_instance

lemma nonTerminal_iff (s : JobStatus) :
    nonTerminal s ↔ ¬(s = JobStatus.completed ∨ s = JobStatus.failed) := by
  cases s <;> simp [nonTerminal]

/-- If every fetch from index `i` on is non-terminal, the loop runs out of
attempts, performing exactly `remaining` further fetches. -/
lemma pollRouteAux_timeout (fetch : Nat → RouteResult)
    (remaining i : Nat) (h : ∀ j, i ≤ j → nonTerminal (fetch j).status) :
    pollRouteAux fetch i remaining = (PollOutcome.timeout, remaining) := by
  induction remaining generalizing i with
  | zero => rfl
  | succ n ih =>
    have hnb : ¬((fetch i).status = JobStatus.completed ∨ (fetch i).status = JobStatus.failed) :=
      (nonTerminal_iff _).mp (h i (Nat.le_refl i))
    simp only [pollRouteAux, if_neg hnb]
    rw [ih (i + 1) (fun j hj => h j (Nat.le_of_succ_le hj))]

/-- If the fetches at indices `i, i+1, …, i+k-1` are non-terminal and the
fetch at `i+k` is terminal, the loop stops at `i+k` with that result,
having performed `k+1` fetches. -/
lemma pollRouteAux_success (fetch : Nat → RouteResult)
    (remaining i k : Nat) (hk : k < remaining)
    (hbefore : ∀ j, j < k → nonTerminal (fetch (i + j)).status)
    (hterm : ¬ nonTerminal (fetch (i + k)).status) :
    pollRouteAux fetch i remaining = (PollOutcome.success (fetch (i + k)), k + 1) := by
  induction k generalizing i remaining with
  | zero =>
    obtain ⟨m, rfl⟩ : ∃ m, remaining = m + 1 :=
      ⟨remaining - 1, (Nat.succ_pred_eq_of_pos hk).symm⟩
    have hb : (fetch i).status = JobStatus.completed ∨ (fetch i).status = JobStatus.failed := by
      have := hterm
      rw [Nat.add_zero] at this
      cases hs : (fetch i).status <;> simp [nonTerminal, hs] at this ⊢
    simp only [pollRouteAux, if_pos hb, Nat.add_zero]
  | succ k ih =>
    obtain ⟨m, rfl⟩ : ∃ m, remaining = m + 1 :=
      ⟨remaining - 1, (Nat.succ_pred_eq_of_pos (Nat.lt_of_le_of_lt (Nat.zero_le _) hk)).symm⟩
    have h0 : nonTerminal (fetch i).status := by
      have := hbefore 0 (Nat.succ_pos k)
      rwa [Nat.add_zero] at this
    have hnb : ¬((fetch i).status = JobStatus.completed ∨ (fetch i).status = JobStatus.failed) :=
      (nonTerminal_iff _).mp h0
    simp only [pollRouteAux, if_neg hnb]
    have hrec := ih m (i + 1) (Nat.lt_of_succ_lt_succ hk)
      (fun j hj => by
        have := hbefore (j + 1) (Nat.succ_lt_succ hj)
        rwa [Nat.add_comm j 1, ← Nat.add_assoc] at this)
      (by
        have he : i + 1 + k = i + (k + 1) := by omega
        rwa [he])
    rw [hrec]
    have : i + 1 + k = i + (k + 1) := by omega
    rw [this]

/- ─────────────────── App.tsx poll-resolution continuation ─────────────────── -/

/-- The slice of `App.tsx` component state written by `handleAnalyze`:
the `loading` flag, the error string and the current result. -/
structure AppState where
  loading : Bool
  error : Option String
  result : Option RouteResult
deriving DecidableEq, Repr

/-- Observable emissions to subscribers: a result being applied
(`setResult` with a value) or an error being surfaced (`setError` with a
message). -/
inductive Emission where
  | onResult (r : RouteResult)
  | onError (msg : String)
deriving DecidableEq, Repr

/-- The fallback error message of `App.tsx` line 73. -/
def unknownErrorMsg : String := "Erro desconhecido na análise da rota."

/-- Events of the `handleAnalyze` control flow, as seen by the shared
component state.  `startAnalyze` is the synchronous prefix of a new
`handleAnalyze` call (lines 51-53).  `pollResolved r` is the resumption
after `await pollRoute(route_id)` resolves with `r` (lines 70-76 and the
`finally` of line 85); the code keeps no handle or job identifier, so the
resumption fires for every resolving poll promise, including one belonging
to a job started before a later `startAnalyze`.  `pollRejected msg` is the
`catch` branch (lines 77-83) for a rejected submit or poll promise. -/
inductive AppEv where
  | startAnalyze
  | pollResolved (r : RouteResult)
  | pollRejected (msg : String)

/-- One step of the `handleAnalyze` state machine, returning the new state
and the emissions the step produces. -/
def stepApp (s : AppState) : AppEv → AppState × List Emission
  | AppEv.startAnalyze =>
    (⟨true, none, none⟩, [])
  | AppEv.pollResolved r =>
    if r.status = JobStatus.failed then
      (⟨false, some (r.error.getD unknownErrorMsg), s.result⟩,
        [Emission.onError (r.error.getD unknownErrorMsg)])
    else
      (⟨false, s.error, some r⟩, [Emission.onResult r])
  | AppEv.pollRejected msg =>
    (⟨false, some msg, s.result⟩, [Emission.onError msg])

/-- Run a sequence of events, collecting all emissions in order. -/
def runApp (s : AppState) : List AppEv → AppState × List Emission
  | [] => (s, [])
  | e :: es =>
    let step := stepApp s e
    let rest := runApp step.1 es
    (rest.1, step.2 ++ rest.2)

/-- The state of `App.tsx` before any analysis. -/
def initialAppState : AppState := ⟨false, none, none⟩

/-- The single emission that the resolution of a poll promise with result
`r` produces in `handleAnalyze`. -/
def pollEmission (r : RouteResult) : Emission :=
  if r.status = JobStatus.failed then
    Emission.onError (r.error.getD unknownErrorMsg)
  else
    Emission.onResult r

/-- A completed stale result used in the concrete counterexample run. -/
def staleResult : RouteResult := ⟨"job-A", JobStatus.completed, none⟩

/- ─────────────────── Claims C1, C2, C3, C10 ─────────────────── -/

/-- C1.  The phase simulator is the pure function of the spec: with
`cycle = green + yellow + red` and `pos = elapsedSec mod cycle`, it
returns (Green, green - pos) when `pos < green`, (Yellow, green + yellow
- pos) when `green ≤ pos < green + yellow`, and (Red, cycle - pos)
otherwise; in particular, for durations (30,5,25) it returns (Green,30)
at elapsed 0, (Yellow,5) at 30, (Red,25) at 35, and (Green,30) at 60. -/
theorem phase_simulator_matches_spec :
    (∀ g y r t, getPhaseAndRemaining g y r t = computePhase g y r t) ∧
    getPhaseAndRemaining 30 5 25 0 = (LightPhase.green, 30) ∧
    getPhaseAndRemaining 30 5 25 30 = (LightPhase.yellow, 5) ∧
    getPhaseAndRemaining 30 5 25 35 = (LightPhase.red, 25) ∧
    getPhaseAndRemaining 30 5 25 60 = (LightPhase.green, 30) := by
  refine ⟨fun g y r t => ?_, by decide, by decide, by decide, by decide⟩
  simp only [getPhaseAndRemaining, computePhase]
  by_cases h1 : t % (g + y + r) < g
  · simp [h1]
  · by_cases h2 : t % (g + y + r) < g + y
    · simp [h1, h2, Nat.le_of_not_lt h1]
    · simp [h1, h2]

/-- C10.  For all durations with `green + yellow + red > 0`, the phase
computation is periodic in elapsed time with period the full cycle, and
the returned remaining always satisfies `1 ≤ remaining ≤ cycle`. -/
theorem phase_periodic_and_bounded (g y r t : Nat) (hc : 0 < g + y + r) :
    getPhaseAndRemaining g y r (t + (g + y + r)) = getPhaseAndRemaining g y r t ∧
    1 ≤ (getPhaseAndRemaining g y r t).2 ∧
    (getPhaseAndRemaining g y r t).2 ≤ g + y + r := by
  have hp : t % (g + y + r) < g + y + r := Nat.mod_lt _ hc
  refine ⟨?_, ?_⟩
  · simp only [getPhaseAndRemaining]
    rw [Nat.add_mod_right]
  · simp only [getPhaseAndRemaining]
    split_ifs with h1 h2 <;> simp <;> omega

/-- Witness for C10 at durations (30,5,25) and elapsed 7. -/
theorem phase_periodic_and_bounded_witness :
    getPhaseAndRemaining 30 5 25 (7 + (30 + 5 + 25)) = getPhaseAndRemaining 30 5 25 7 ∧
    1 ≤ (getPhaseAndRemaining 30 5 25 7).2 ∧
    (getPhaseAndRemaining 30 5 25 7).2 ≤ 30 + 5 + 25 :=
  phase_periodic_and_bounded 30 5 25 7 (by decide)

/-- C2.  For every `maxAttempts ≥ 1`, against a backend whose fetches all
return pending/processing the poll loop performs exactly `maxAttempts`
fetches and then fails with the timeout error, without retrying; and the
first fetch returning completed or failed ends the loop with that
`RouteResult` as the final result. -/
theorem poll_loop_attempt_budget (fetch : Nat → RouteResult) (maxAttempts : Nat)
    (_hmax : 1 ≤ maxAttempts) :
    ((∀ i, nonTerminal (fetch i).status) →
      pollRoute fetch maxAttempts = (PollOutcome.timeout, maxAttempts)) ∧
    (∀ k, k < maxAttempts →
      (∀ j, j < k → nonTerminal (fetch j).status) →
      ((fetch k).status = JobStatus.completed ∨ (fetch k).status = JobStatus.failed) →
      pollRoute fetch maxAttempts = (PollOutcome.success (fetch k), k + 1)) := by
  refine ⟨fun h => ?_, fun k hk hb ht => ?_⟩
  · exact pollRouteAux_timeout fetch maxAttempts 0 (fun j _ => h j)
  · have hterm : ¬ nonTerminal (fetch (0 + k)).status := by
      rw [Nat.zero_add]
      exact fun hn => ((nonTerminal_iff _).mp hn) ht
    have := pollRouteAux_success fetch maxAttempts 0 k hk
      (fun j hj => by simpa using hb j hj) hterm
    simpa [pollRoute] using this

/-- Witness for C2: a backend stuck on `processing` under a budget of 3
attempts times out after exactly 3 fetches. -/
theorem poll_loop_attempt_budget_witness :
    pollRoute (fun _ => ⟨"job-w", JobStatus.processing, none⟩) 3 =
      (PollOutcome.timeout, 3) :=
  (poll_loop_attempt_budget (fun _ => ⟨"job-w", JobStatus.processing, none⟩) 3
    (by decide)).1 (fun _ => Or.inr rfl)

/-- C3 counterexample.  The claim says a job cancelled by starting a new
analysis before the prior one resolves produces zero observable
onResult/onError emissions from its late poll completion.  In the code
there is no cancellation: after `startAnalyze` runs twice (the second
analysis beginning while the first job's poll fetch is in flight), the
late resolution of the first job's poll with the completed `staleResult`
still emits `onResult staleResult` and overwrites the component result,
so the number of emissions is one, not zero. -/
theorem stale_poll_emission_counterexample :
    (runApp initialAppState
      [AppEv.startAnalyze, AppEv.startAnalyze, AppEv.pollResolved staleResult]).2 =
      [Emission.onResult staleResult] ∧
    (runApp initialAppState
      [AppEv.startAnalyze, AppEv.startAnalyze, AppEv.pollResolved staleResult]).2 ≠ [] ∧
    (runApp initialAppState
      [AppEv.startAnalyze, AppEv.startAnalyze, AppEv.pollResolved staleResult]).1.result =
      some staleResult := by
  refine ⟨by decide, by decide, by decide⟩

/-- C3 amended.  `handleAnalyze` performs no cancellation: when a new
analysis is started before the prior one's poll resolves, the prior
job's late poll completion still produces exactly one observable
emission (onResult for a non-failed result, onError for a failed one),
and a non-failed stale result is applied, overwriting the state the new
analysis had cleared. -/
theorem no_cancellation_stale_poll_applied (r : RouteResult) :
    (runApp initialAppState
      [AppEv.startAnalyze, AppEv.startAnalyze, AppEv.pollResolved r]).2 =
      [pollEmission r] ∧
    (r.status ≠ JobStatus.failed →
      (runApp initialAppState
        [AppEv.startAnalyze, AppEv.startAnalyze, AppEv.pollResolved r]).1.result = some r) := by
  by_cases hf : r.status = JobStatus.failed <;>
    simp [runApp, stepApp, pollEmission, hf]

/-- Witness for C3's amended statement at the concrete stale result. -/
theorem no_cancellation_stale_poll_applied_witness :
    (runApp initialAppState
      [AppEv.startAnalyze, AppEv.startAnalyze, AppEv.pollResolved staleResult]).2 =
      [pollEmission staleResult] ∧
    (runApp initialAppState
      [AppEv.startAnalyze, AppEv.startAnalyze, AppEv.pollResolved staleResult]).1.result =
      some staleResult :=
  ⟨(no_cancellation_stale_poll_applied staleResult).1,
   (no_cancellation_stale_poll_applied staleResult).2 (by decide)⟩

/- ───────────────────────── Map layer data model ───────────────────────── -/

/-- The `route_geometry` object: a GeoJSON geometry with a type tag and a
list of [lon, lat] coordinate pairs. -/
structure RouteGeometry where
  type : String
  coordinates : List (Rat × Rat)
deriving DecidableEq, Repr

/-- The `WeatherSample` interface of the api service. -/
structure WeatherSample where
  lat : Rat
  lon : Rat
  timestamp : String
  precip_mm : Rat
  precip_prob : Rat
  temperature_c : Option Rat
  wind_speed_kmh : Option Rat
  humidity_percent : Option Rat
  visibility_m : Option Rat
  fog_risk : String
  rain_risk : String
  source : String
  description : String
deriving DecidableEq, Repr

/-- The `TollPoint` interface. -/
structure TollPoint where
  lat : Rat
  lon : Rat
  name : String
  operator : String
deriving DecidableEq, Repr

/-- The `AccidentPoint` interface. -/
structure AccidentPoint where
  lat : Rat
  lon : Rat
  type : String
  severity : String
  description : String
  delay_minutes : Rat
deriving DecidableEq, Repr

/-- The `CongestionSegment` interface. -/
structure CongestionSegment where
  coordinates : List (Rat × Rat)
  congestion_level : String
  congestion_ratio : Rat
  avg_speed_kmh : Rat
  color : String
deriving DecidableEq, Repr

/-- The `TrafficLightPoint` interface. -/
structure TrafficLightPoint where
  lat : Rat
  lon : Rat
  osm_id : Int
  name : String
  green_duration : Nat
  yellow_duration : Nat
  red_duration : Nat
  distance_m : Option Rat
deriving DecidableEq, Repr

/-- The per-channel data refs of `MapView.tsx` at the time of a rebuild:
`routeGeomRef` (null until first set), `samplesRef` (null or a list), and
the four point/segment refs that default to the empty list. -/
structure RenderData where
  routeGeom : Option RouteGeometry
  samples : Option (List WeatherSample)
  tolls : List TollPoint
  accidents : List AccidentPoint
  congestion : List CongestionSegment
  signals : List TrafficLightPoint
deriving DecidableEq, Repr

/-- The overlay source and layer identifiers that `MapView.tsx` ever
creates, one constructor per identifier string:
route / route-line / route-outline; tolls / toll-circles / toll-labels;
accidents / accident-circles / accident-labels; samples /
samples-circles-stroke / samples-circles / samples-labels; signals /
signal-circles / signal-labels; and the per-segment families
congestion-seg-{idx} (source), congestion-seg-outline-{idx} and
congestion-seg-line-{idx} (layers).  The naming scheme is injective, which
the constructors capture directly. -/
inductive MapId where
  | route
  | routeLine
  | routeOutline
  | tolls
  | tollCircles
  | tollLabels
  | accidents
  | accidentCircles
  | accidentLabels
  | samples
  | samplesCirclesStroke
  | samplesCircles
  | samplesLabels
  | signals
  | signalCircles
  | signalLabels
  | congSeg (idx : Nat)
  | congSegOutline (idx : Nat)
  | congSegLine (idx : Nat)
deriving DecidableEq, Repr

/-- The map surface, restricted to the overlay namespace owned by
`MapView.tsx`: the registered source identifiers (registration order) and
the added layer identifiers in draw order, bottom to top.  `addLayer` is
always called without a `beforeId`, so MapLibre appends the new layer on
top; the basemap style's own layers sit below all overlays and never
match an overlay identifier, so they are outside the state. -/
@[ext]
structure MapState where
  sources : List MapId
  layers : List MapId
deriving DecidableEq, Repr

/-- `m.getLayer(id)` as a Boolean. -/
def MapState.hasLayer (m : MapState) (i : MapId) : Bool :=
  m.layers.contains i

/-- `m.getSource(id)` as a Boolean. -/
def MapState.hasSource (m : MapState) (i : MapId) : Bool :=
  m.sources.contains i

/-- `m.addLayer({id, …})` without `beforeId`: appended on top. -/
def MapState.addLayer (m : MapState) (i : MapId) : MapState :=
  ⟨m.sources, m.layers ++ [i]⟩

/-- `m.addSource(id, …)`. -/
def MapState.addSource (m : MapState) (i : MapId) : MapState :=
  ⟨m.sources ++ [i], m.layers⟩

/-- `m.removeLayer(id)`. -/
def MapState.removeLayer (m : MapState) (i : MapId) : MapState :=
  ⟨m.sources, m.layers.filter (fun x => x != i)⟩

/-- `m.removeSource(id)`. -/
def MapState.removeSource (m : MapState) (i : MapId) : MapState :=
  ⟨m.sources.filter (fun x => x != i), m.layers⟩

/-- The guarded removal idiom `if (m.getLayer(id)) m.removeLayer(id)`. -/
def MapState.removeLayerIfPresent (m : MapState) (i : MapId) : MapState :=
  if m.hasLayer i then m.removeLayer i else m

/-- The guarded removal idiom `if (m.getSource(id)) m.removeSource(id)`. -/
def MapState.removeSourceIfPresent (m : MapState) (i : MapId) : MapState :=
  if m.hasSource i then m.removeSource i else m

/-- The map surface before any overlay has been added (also the state
right after a style swap discards all overlay sources and layers). -/
def emptyMap : MapState := ⟨[], []⟩

/-- `id.startsWith('congestion-seg-')`: exactly the three per-segment
identifier families begin with that prefix. -/
def isCongPrefixed : MapId → Bool
  | MapId.congSeg _ => true
  | MapId.congSegOutline _ => true
  | MapId.congSegLine _ => true
  | _ => false

/- ───────────────────────── Channel rebuild functions ───────────────────────── -/

/-- Embedding of `addRouteLayers` (MapView, lines 144-180).  Note the
guard `if (!m || !geom) return` comes BEFORE the removals, so with an
absent geometry the function leaves the surface untouched.  The feature
payload written into the GeoJSON source does not influence identifiers
and is not recorded. -/
def addRouteLayers (d : RenderData) (m : MapState) : MapState :=
  match d.routeGeom with
  | none => m
  | some _ =>
    let m1 := m.removeLayerIfPresent MapId.routeLine
    let m2 := m1.removeLayerIfPresent MapId.routeOutline
    let m3 := m2.removeSourceIfPresent MapId.route
    let hasCongestion := 0 < d.congestion.length
    let m4 := (m3.addSource MapId.route).addLayer MapId.routeOutline
    if hasCongestion then m4 else m4.addLayer MapId.routeLine

/-- Embedding of `addTollLayers` (lines 182-225): remove toll-labels,
toll-circles and the tolls source, then return when the toll list is
empty, else add the source, the circle layer, the label layer. -/
def addTollLayers (d : RenderData) (m : MapState) : MapState :=
  let m1 := m.removeLayerIfPresent MapId.tollLabels
  let m2 := m1.removeLayerIfPresent MapId.tollCircles
  let m3 := m2.removeSourceIfPresent MapId.tolls
  if d.tolls.isEmpty then m3
  else ((m3.addSource MapId.tolls).addLayer MapId.tollCircles).addLayer MapId.tollLabels

/-- Embedding of `addAccidentLayers` (lines 227-275), same shape as the
toll channel. -/
def addAccidentLayers (d : RenderData) (m : MapState) : MapState :=
  let m1 := m.removeLayerIfPresent MapId.accidentLabels
  let m2 := m1.removeLayerIfPresent MapId.accidentCircles
  let m3 := m2.removeSourceIfPresent MapId.accidents
  if d.accidents.isEmpty then m3
  else ((m3.addSource MapId.accidents).addLayer MapId.accidentCircles).addLayer
    MapId.accidentLabels

/-- The loop `segments.forEach((seg, idx) => …)` of `addCongestionLayers`
(lines 297-342): for each segment, add the source `congestion-seg-{idx}`,
then the outline layer, then the main line layer. -/
def addCongSegsFrom (segs : List CongestionSegment) (idx : Nat) (m : MapState) : MapState :=
  match segs with
  | [] => m
  | _seg :: rest =>
    addCongSegsFrom rest (idx + 1)
      (((m.addSource (MapId.congSeg idx)).addLayer (MapId.congSegOutline idx)).addLayer
        (MapId.congSegLine idx))

/-- Embedding of `addCongestionLayers` (lines 278-343): enumerate the
surface's live layers filtered by the `congestion-seg-` prefix and remove
them, do the same for sources, then return when the segment list is
empty, else add the new enumeration. -/
def addCongestionLayers (d : RenderData) (m : MapState) : MapState :=
  let existingLayers := m.layers.filter isCongPrefixed
  let m1 := existingLayers.foldl MapState.removeLayer m
  let existingSources := m1.sources.filter isCongPrefixed
  let m2 := existingSources.foldl MapState.removeSource m1
  if d.congestion.isEmpty then m2
  else addCongSegsFrom d.congestion 0 m2

/-- The emptiness test `!s || s.length === 0` of `addSampleLayers`. -/
def sampleAbsent (d : RenderData) : Bool :=
  match d.samples with
  | none => true
  | some s => s.isEmpty

/-- Embedding of `addSampleLayers` (lines 394-484): remove samples-labels,
samples-circles, samples-circles-stroke and the samples source, then
return when the sample data is null or empty, else add the source, the
stroke layer, the circle layer, the label layer. -/
def addSampleLayers (d : RenderData) (m : MapState) : MapState :=
  let m1 := m.removeLayerIfPresent MapId.samplesLabels
  let m2 := m1.removeLayerIfPresent MapId.samplesCircles
  let m3 := m2.removeLayerIfPresent MapId.samplesCirclesStroke
  let m4 := m3.removeSourceIfPresent MapId.samples
  if sampleAbsent d then m4
  else (((m4.addSource MapId.samples).addLayer MapId.samplesCirclesStroke).addLayer
      MapId.samplesCircles).addLayer MapId.samplesLabels

/-- Embedding of `addTrafficLightLayers` (lines 346-392), same shape as
the toll channel. -/
def addTrafficLightLayers (d : RenderData) (m : MapState) : MapState :=
  let m1 := m.removeLayerIfPresent MapId.signalLabels
  let m2 := m1.removeLayerIfPresent MapId.signalCircles
  let m3 := m2.removeSourceIfPresent MapId.signals
  if d.signals.isEmpty then m3
  else ((m3.addSource MapId.signals).addLayer MapId.signalCircles).addLayer MapId.signalLabels

/-- Embedding of `rebuildLayers` (lines 135-142): the full rebuild runs
the six channel functions in source order. -/
def rebuildLayers (d : RenderData) (m : MapState) : MapState :=
  addTrafficLightLayers d
    (addAccidentLayers d
      (addTollLayers d
        (addSampleLayers d
          (addCongestionLayers d
            (addRouteLayers d m)))))

/-- Embedding of the `congestionSegments` change effect (lines 677-682):
`doIt = () => { addRouteLayers(); addCongestionLayers() }`. -/
def congestionEffect (d : RenderData) (m : MapState) : MapState :=
  addCongestionLayers d (addRouteLayers d m)

/- ───────────────────────── Channel identifier classes ───────────────────────── -/

/-- The layer identifiers reserved by the route channel. -/
def isRouteLayerId : MapId → Bool
  | MapId.routeLine | MapId.routeOutline => true
  | _ => false

/-- The source identifier reserved by the route channel. -/
def isRouteSrcId : MapId → Bool
  | MapId.route => true
  | _ => false

/-- The layer identifiers reserved by the toll channel. -/
def isTollLayerId : MapId → Bool
  | MapId.tollLabels | MapId.tollCircles => true
  | _ => false

/-- The source identifier reserved by the toll channel. -/
def isTollSrcId : MapId → Bool
  | MapId.tolls => true
  | _ => false

/-- The layer identifiers reserved by the accident channel. -/
def isAccLayerId : MapId → Bool
  | MapId.accidentLabels | MapId.accidentCircles => true
  | _ => false

/-- The source identifier reserved by the accident channel. -/
def isAccSrcId : MapId → Bool
  | MapId.accidents => true
  | _ => false

/-- The layer identifiers reserved by the weather-sample channel. -/
def isSampleLayerId : MapId → Bool
  | MapId.samplesLabels | MapId.samplesCircles | MapId.samplesCirclesStroke => true
  | _ => false

/-- The source identifier reserved by the weather-sample channel. -/
def isSampleSrcId : MapId → Bool
  | MapId.samples => true
  | _ => false

/-- The layer identifiers reserved by the traffic-light channel. -/
def isSigLayerId : MapId → Bool
  | MapId.signalLabels | MapId.signalCircles => true
  | _ => false

/-- The source identifier reserved by the traffic-light channel. -/
def isSigSrcId : MapId → Bool
  | MapId.signals => true
  | _ => false

/- ───────────────────────── Strip-and-append normal forms ───────────────────────── -/

/-- Every channel function acts on each identifier list by filtering out
a reserved class and appending a fresh block at the top. -/
def stripAdd (p : MapId → Bool) (b : List MapId) (l : List MapId) : List MapId :=
  l.filter (fun x => !(p x)) ++ b

/-- Sources appended by the route channel. -/
def routeSrcBlock (d : RenderData) : List MapId :=
  match d.routeGeom with
  | none => []
  | some _ => [MapId.route]

/-- Layers appended by the route channel: the outline always, the main
line only when no congestion segments are present. -/
def routeLayerBlock (d : RenderData) : List MapId :=
  match d.routeGeom with
  | none => []
  | some _ =>
    if 0 < d.congestion.length then [MapId.routeOutline]
    else [MapId.routeOutline, MapId.routeLine]

/-- Identifiers the route channel strips (none when the geometry ref is
still null, because of the early return). -/
def routeLayerStrip (d : RenderData) (x : MapId) : Bool :=
  d.routeGeom.isSome && isRouteLayerId x

/-- Source identifiers the route channel strips. -/
def routeSrcStrip (d : RenderData) (x : MapId) : Bool :=
  d.routeGeom.isSome && isRouteSrcId x

/-- Sources appended by the congestion channel, indices `start` up to
`start + n`. -/
def congSrcBlockFrom : Nat → Nat → List MapId
  | _, 0 => []
  | start, n + 1 => MapId.congSeg start :: congSrcBlockFrom (start + 1) n

/-- Layers appended by the congestion channel: outline then line per
index. -/
def congLayerBlockFrom : Nat → Nat → List MapId
  | _, 0 => []
  | start, n + 1 =>
    MapId.congSegOutline start :: MapId.congSegLine start :: congLayerBlockFrom (start + 1) n

/-- Congestion source block for `n` segments. -/
def congSrcBlock (n : Nat) : List MapId := congSrcBlockFrom 0 n

/-- Congestion layer block for `n` segments. -/
def congLayerBlock (n : Nat) : List MapId := congLayerBlockFrom 0 n

/-- Sources appended by the sample channel. -/
def sampleSrcBlock (d : RenderData) : List MapId :=
  if sampleAbsent d then [] else [MapId.samples]

/-- Layers appended by the sample channel. -/
def sampleLayerBlock (d : RenderData) : List MapId :=
  if sampleAbsent d then []
  else [MapId.samplesCirclesStroke, MapId.samplesCircles, MapId.samplesLabels]

/-- Sources appended by the toll channel. -/
def tollSrcBlock (d : RenderData) : List MapId :=
  if d.tolls.isEmpty then [] else [MapId.tolls]

/-- Layers appended by the toll channel. -/
def tollLayerBlock (d : RenderData) : List MapId :=
  if d.tolls.isEmpty then [] else [MapId.tollCircles, MapId.tollLabels]

/-- Sources appended by the accident channel. -/
def accSrcBlock (d : RenderData) : List MapId :=
  if d.accidents.isEmpty then [] else [MapId.accidents]

/-- Layers appended by the accident channel. -/
def accLayerBlock (d : RenderData) : List MapId :=
  if d.accidents.isEmpty then [] else [MapId.accidentCircles, MapId.accidentLabels]

/-- Sources appended by the traffic-light channel. -/
def sigSrcBlock (d : RenderData) : List MapId :=
  if d.signals.isEmpty then [] else [MapId.signals]

/-- Layers appended by the traffic-light channel. -/
def sigLayerBlock (d : RenderData) : List MapId :=
  if d.signals.isEmpty then [] else [MapId.signalCircles, MapId.signalLabels]

/- ───────────────────────── Small rewriting lemmas ───────────────────────── -/

lemma filter_ext (l : List MapId) {p q : MapId → Bool} (h : ∀ x, p x = q x) :
    l.filter p = l.filter q :=
  List.filter_congr (fun x _ => h x)

lemma removeLayerIfPresent_eq (m : MapState) (i : MapId) :
    m.removeLayerIfPresent i = ⟨m.sources, m.layers.filter (fun x => x != i)⟩ := by
  unfold MapState.removeLayerIfPresent MapState.removeLayer MapState.hasLayer
  split
  · rfl
  · next h =>
    have hfilter : m.layers.filter (fun x => x != i) = m.layers := by
      rw [List.filter_eq_self]
      intro a ha
      simp only [bne_iff_ne, ne_eq]
      rintro rfl
      exact h (List.elem_iff.mpr ha)
    rw [hfilter]

lemma removeSourceIfPresent_eq (m : MapState) (i : MapId) :
    m.removeSourceIfPresent i = ⟨m.sources.filter (fun x => x != i), m.layers⟩ := by
  unfold MapState.removeSourceIfPresent MapState.removeSource MapState.hasSource
  split
  · rfl
  · next h =>
    have hfilter : m.sources.filter (fun x => x != i) = m.sources := by
      rw [List.filter_eq_self]
      intro a ha
      simp only [bne_iff_ne, ne_eq]
      rintro rfl
      exact h (List.elem_iff.mpr ha)
    rw [hfilter]

lemma routeLayer_pred (x : MapId) :
    ((x != MapId.routeOutline) && (x != MapId.routeLine)) = !(isRouteLayerId x) := by
  cases x <;> rfl

lemma routeSrc_pred (x : MapId) : (x != MapId.route) = !(isRouteSrcId x) := by
  cases x <;> rfl

lemma tollLayer_pred (x : MapId) :
    ((x != MapId.tollCircles) && (x != MapId.tollLabels)) = !(isTollLayerId x) := by
  cases x <;> rfl

lemma tollSrc_pred (x : MapId) : (x != MapId.tolls) = !(isTollSrcId x) := by
  cases x <;> rfl

lemma accLayer_pred (x : MapId) :
    ((x != MapId.accidentCircles) && (x != MapId.accidentLabels)) = !(isAccLayerId x) := by
  cases x <;> rfl

lemma accSrc_pred (x : MapId) : (x != MapId.accidents) = !(isAccSrcId x) := by
  cases x <;> rfl

lemma sampleLayer_pred (x : MapId) :
    (((x != MapId.samplesCirclesStroke) && (x != MapId.samplesCircles)) &&
      (x != MapId.samplesLabels)) = !(isSampleLayerId x) := by
  cases x <;> rfl

lemma sampleSrc_pred (x : MapId) : (x != MapId.samples) = !(isSampleSrcId x) := by
  cases x <;> rfl

lemma sigLayer_pred (x : MapId) :
    ((x != MapId.signalCircles) && (x != MapId.signalLabels)) = !(isSigLayerId x) := by
  cases x <;> rfl

lemma sigSrc_pred (x : MapId) : (x != MapId.signals) = !(isSigSrcId x) := by
  cases x <;> rfl

/- ───────────────────────── Per-channel normal-form lemmas ───────────────────────── -/

lemma addTollLayers_eq (d : RenderData) (m : MapState) :
    addTollLayers d m =
      ⟨stripAdd isTollSrcId (tollSrcBlock d) m.sources,
       stripAdd isTollLayerId (tollLayerBlock d) m.layers⟩ := by
  unfold addTollLayers
  simp only [removeLayerIfPresent_eq, removeSourceIfPresent_eq]
  by_cases he : d.tolls.isEmpty
  · simp only [he, if_true, stripAdd, tollSrcBlock, tollLayerBlock, List.append_nil]
    refine MapState.ext ?_ ?_
    · exact filter_ext _ tollSrc_pred
    · rw [List.filter_filter]
      exact filter_ext _ tollLayer_pred
  · simp only [he, if_false, MapState.addSource, MapState.addLayer, stripAdd,
      tollSrcBlock, tollLayerBlock, List.append_assoc, List.singleton_append,
      List.cons_append, List.nil_append]
    refine MapState.ext ?_ ?_
    · exact congrArg (· ++ [MapId.tolls]) (filter_ext _ tollSrc_pred)
    · rw [List.filter_filter]
      exact congrArg (· ++ [MapId.tollCircles, MapId.tollLabels]) (filter_ext _ tollLayer_pred)

lemma addAccidentLayers_eq (d : RenderData) (m : MapState) :
    addAccidentLayers d m =
      ⟨stripAdd isAccSrcId (accSrcBlock d) m.sources,
       stripAdd isAccLayerId (accLayerBlock d) m.layers⟩ := by
  unfold addAccidentLayers
  simp only [removeLayerIfPresent_eq, removeSourceIfPresent_eq]
  by_cases he : d.accidents.isEmpty
  · simp only [he, if_true, stripAdd, accSrcBlock, accLayerBlock, List.append_nil]
    refine MapState.ext ?_ ?_
    · exact filter_ext _ accSrc_pred
    · rw [List.filter_filter]
      exact filter_ext _ accLayer_pred
  · simp only [he, if_false, MapState.addSource, MapState.addLayer, stripAdd,
      accSrcBlock, accLayerBlock, List.append_assoc, List.singleton_append,
      List.cons_append, List.nil_append]
    refine MapState.ext ?_ ?_
    · exact congrArg (· ++ [MapId.accidents]) (filter_ext _ accSrc_pred)
    · rw [List.filter_filter]
      exact congrArg (· ++ [MapId.accidentCircles, MapId.accidentLabels])
        (filter_ext _ accLayer_pred)

lemma addTrafficLightLayers_eq (d : RenderData) (m : MapState) :
    addTrafficLightLayers d m =
      ⟨stripAdd isSigSrcId (sigSrcBlock d) m.sources,
       stripAdd isSigLayerId (sigLayerBlock d) m.layers⟩ := by
  unfold addTrafficLightLayers
  simp only [removeLayerIfPresent_eq, removeSourceIfPresent_eq]
  by_cases he : d.signals.isEmpty
  · simp only [he, if_true, stripAdd, sigSrcBlock, sigLayerBlock, List.append_nil]
    refine MapState.ext ?_ ?_
    · exact filter_ext _ sigSrc_pred
    · rw [List.filter_filter]
      exact filter_ext _ sigLayer_pred
  · simp only [he, if_false, MapState.addSource, MapState.addLayer, stripAdd,
      sigSrcBlock, sigLayerBlock, List.append_assoc, List.singleton_append,
      List.cons_append, List.nil_append]
    refine MapState.ext ?_ ?_
    · exact congrArg (· ++ [MapId.signals]) (filter_ext _ sigSrc_pred)
    · rw [List.filter_filter]
      exact congrArg (· ++ [MapId.signalCircles, MapId.signalLabels])
        (filter_ext _ sigLayer_pred)

lemma addSampleLayers_eq (d : RenderData) (m : MapState) :
    addSampleLayers d m =
      ⟨stripAdd isSampleSrcId (sampleSrcBlock d) m.sources,
       stripAdd isSampleLayerId (sampleLayerBlock d) m.layers⟩ := by
  unfold addSampleLayers
  simp only [removeLayerIfPresent_eq, removeSourceIfPresent_eq]
  by_cases he : sampleAbsent d
  · simp only [he, if_true, stripAdd, sampleSrcBlock, sampleLayerBlock, List.append_nil]
    refine MapState.ext ?_ ?_
    · exact filter_ext _ sampleSrc_pred
    · rw [List.filter_filter, List.filter_filter]
      exact filter_ext _ sampleLayer_pred
  · simp only [he, if_false, MapState.addSource, MapState.addLayer, stripAdd,
      sampleSrcBlock, sampleLayerBlock, List.append_assoc, List.singleton_append,
      List.cons_append, List.nil_append]
    refine MapState.ext ?_ ?_
    · exact congrArg (· ++ [MapId.samples]) (filter_ext _ sampleSrc_pred)
    · rw [List.filter_filter, List.filter_filter]
      exact congrArg
        (· ++ [MapId.samplesCirclesStroke, MapId.samplesCircles, MapId.samplesLabels])
        (filter_ext _ sampleLayer_pred)

lemma addRouteLayers_eq (d : RenderData) (m : MapState) :
    addRouteLayers d m =
      ⟨stripAdd (routeSrcStrip d) (routeSrcBlock d) m.sources,
       stripAdd (routeLayerStrip d) (routeLayerBlock d) m.layers⟩ := by
  cases hg : d.routeGeom with
  | none =>
    simp only [addRouteLayers, hg, stripAdd, routeSrcStrip, routeLayerStrip, routeSrcBlock,
      routeLayerBlock, Option.isSome_none, Bool.false_and, Bool.not_false, List.filter_true,
      List.append_nil]
  | some g =>
    simp only [addRouteLayers, hg, removeLayerIfPresent_eq, removeSourceIfPresent_eq,
      MapState.addSource, MapState.addLayer, stripAdd, routeSrcStrip, routeLayerStrip,
      routeSrcBlock, routeLayerBlock, Option.isSome_some, Bool.true_and]
    by_cases hc : 0 < d.congestion.length
    · rw [if_pos hc, if_pos hc]
      refine MapState.ext ?_ ?_
      · exact congrArg (· ++ [MapId.route]) (filter_ext _ routeSrc_pred)
      · rw [List.filter_filter]
        exact congrArg (· ++ [MapId.routeOutline]) (filter_ext _ routeLayer_pred)
    · rw [if_neg hc, if_neg hc]
      simp only [MapState.addLayer, List.append_assoc, List.singleton_append,
        List.cons_append, List.nil_append]
      refine MapState.ext ?_ ?_
      · exact congrArg (· ++ [MapId.route]) (filter_ext _ routeSrc_pred)
      · rw [List.filter_filter]
        exact congrArg (· ++ [MapId.routeOutline, MapId.routeLine])
          (filter_ext _ routeLayer_pred)

lemma foldl_removeLayer_sources (ids : List MapId) (m : MapState) :
    (ids.foldl MapState.removeLayer m).sources = m.sources := by
  induction ids generalizing m with
  | nil => rfl
  | cons i is ih => simp only [List.foldl_cons, ih, MapState.removeLayer]

lemma foldl_removeLayer_layers (ids : List MapId) (m : MapState) :
    (ids.foldl MapState.removeLayer m).layers =
      m.layers.filter (fun x => !(ids.contains x)) := by
  induction ids generalizing m with
  | nil =>
    exact (List.filter_eq_self.mpr (fun a _ => rfl)).symm
  | cons i is ih =>
    simp only [List.foldl_cons, ih, MapState.removeLayer]
    rw [List.filter_filter]
    refine filter_ext _ ?_
    intro a
    rw [List.contains_cons]
    cases h1 : (a == i) <;> cases h2 : is.contains a <;> simp [bne, h1, h2]

lemma foldl_removeSource_layers (ids : List MapId) (m : MapState) :
    (ids.foldl MapState.removeSource m).layers = m.layers := by
  induction ids generalizing m with
  | nil => rfl
  | cons i is ih => simp only [List.foldl_cons, ih, MapState.removeSource]

lemma foldl_removeSource_sources (ids : List MapId) (m : MapState) :
    (ids.foldl MapState.removeSource m).sources =
      m.sources.filter (fun x => !(ids.contains x)) := by
  induction ids generalizing m with
  | nil =>
    exact (List.filter_eq_self.mpr (fun a _ => rfl)).symm
  | cons i is ih =>
    simp only [List.foldl_cons, ih, MapState.removeSource]
    rw [List.filter_filter]
    refine filter_ext _ ?_
    intro a
    rw [List.contains_cons]
    cases h1 : (a == i) <;> cases h2 : is.contains a <;> simp [bne, h1, h2]

lemma contains_filter_eq (l : List MapId) (p : MapId → Bool) (x : MapId) (hx : x ∈ l) :
    (l.filter p).contains x = p x := by
  cases hc : p x
  · cases hcont : (l.filter p).contains x
    · rfl
    · exact absurd (List.mem_filter.mp (List.elem_iff.mp hcont)).2 (by simp [hc])
  · exact List.elem_iff.mpr (List.mem_filter.mpr ⟨hx, hc⟩)

lemma addCongSegsFrom_eq (segs : List CongestionSegment) (start : Nat) (m : MapState) :
    addCongSegsFrom segs start m =
      ⟨m.sources ++ congSrcBlockFrom start segs.length,
       m.layers ++ congLayerBlockFrom start segs.length⟩ := by
  induction segs generalizing start m with
  | nil => simp [addCongSegsFrom, congSrcBlockFrom, congLayerBlockFrom]
  | cons s rest ih =>
    simp only [addCongSegsFrom, ih, MapState.addSource, MapState.addLayer, List.length_cons,
      congSrcBlockFrom, congLayerBlockFrom, List.append_assoc, List.cons_append,
      List.singleton_append, List.nil_append]

lemma addCongestionLayers_eq (d : RenderData) (m : MapState) :
    addCongestionLayers d m =
      ⟨stripAdd isCongPrefixed (congSrcBlock d.congestion.length) m.sources,
       stripAdd isCongPrefixed (congLayerBlock d.congestion.length) m.layers⟩ := by
  unfold addCongestionLayers
  have hl1 : ((m.layers.filter isCongPrefixed).foldl MapState.removeLayer m).layers =
      m.layers.filter (fun x => !(isCongPrefixed x)) := by
    rw [foldl_removeLayer_layers]
    refine List.filter_congr ?_
    intro x hx
    rw [contains_filter_eq m.layers isCongPrefixed x hx]
  have hs1 : ((m.layers.filter isCongPrefixed).foldl MapState.removeLayer m).sources =
      m.sources := foldl_removeLayer_sources _ _
  set m1 := (m.layers.filter isCongPrefixed).foldl MapState.removeLayer m with hm1
  have hs2 : ((m1.sources.filter isCongPrefixed).foldl MapState.removeSource m1).sources =
      m.sources.filter (fun x => !(isCongPrefixed x)) := by
    rw [foldl_removeSource_sources, hs1]
    refine List.filter_congr ?_
    intro x hx
    rw [contains_filter_eq m.sources isCongPrefixed x hx]
  have hl2 : ((m1.sources.filter isCongPrefixed).foldl MapState.removeSource m1).layers =
      m.layers.filter (fun x => !(isCongPrefixed x)) := by
    rw [foldl_removeSource_layers, hl1]
  set m2 := (m1.sources.filter isCongPrefixed).foldl MapState.removeSource m1 with hm2
  by_cases he : d.congestion.isEmpty
  · rw [if_pos he]
    have hlen : d.congestion.length = 0 :=
      List.length_eq_zero.mpr (List.isEmpty_iff.mp he)
    rw [hlen]
    refine MapState.ext ?_ ?_
    · rw [hs2]
      simp [stripAdd, congSrcBlock, congSrcBlockFrom]
    · rw [hl2]
      simp [stripAdd, congLayerBlock, congLayerBlockFrom]
  · rw [if_neg he, addCongSegsFrom_eq]
    refine MapState.ext ?_ ?_
    · rw [hs2]
      rfl
    · rw [hl2]
      rfl

/- ───────────────────────── stripAdd algebra ───────────────────────── -/

lemma stripAdd_stripAdd (p q : MapId → Bool) (b c l : List MapId)
    (h : ∀ x ∈ b, q x = false) :
    stripAdd q c (stripAdd p b l) = stripAdd (fun x => p x || q x) (b ++ c) l := by
  unfold stripAdd
  rw [List.filter_append, List.filter_filter,
    show (b.filter fun x => !(q x)) = b from
      List.filter_eq_self.mpr (fun a ha => by simp [h a ha]),
    List.append_assoc]
  congr 1
  refine filter_ext _ ?_
  intro x
  cases hp : p x <;> cases hq : q x <;> simp [hp, hq]

lemma stripAdd_idem (p : MapId → Bool) (b l : List MapId)
    (h : ∀ x ∈ b, p x = true) :
    stripAdd p b (stripAdd p b l) = stripAdd p b l := by
  unfold stripAdd
  rw [List.filter_append, List.filter_filter,
    show (b.filter fun x => !(p x)) = ([] : List MapId) from
      List.filter_eq_nil_iff.mpr (fun a ha => by simp [h a ha])]
  simp only [List.append_nil]
  congr 1
  refine filter_ext _ ?_
  intro x
  cases hp : p x <;> simp [hp]

lemma filter_stripAdd (p strip : MapId → Bool) (b l : List MapId)
    (himp : ∀ x, p x = true → strip x = true) :
    (stripAdd strip b l).filter p = b.filter p := by
  unfold stripAdd
  rw [List.filter_append]
  have h0 : (l.filter (fun x => !(strip x))).filter p = [] := by
    rw [List.filter_eq_nil_iff]
    intro a ha hpa
    have hmem := (List.mem_filter.mp ha).2
    rw [himp a hpa] at hmem
    simp at hmem
  rw [h0, List.nil_append]

lemma not_mem_stripAdd {x : MapId} {strip : MapId → Bool} {b l : List MapId}
    (hstrip : strip x = true) (hb : x ∉ b) : x ∉ stripAdd strip b l := by
  intro hmem
  rcases List.mem_append.mp hmem with h | h
  · have := (List.mem_filter.mp h).2
    rw [hstrip] at this
    simp at this
  · exact hb h

/- ───────────────────────── Block membership lemmas ───────────────────────── -/

lemma mem_append_pred {p : MapId → Bool} {a b : List MapId}
    (ha : ∀ x ∈ a, p x = false) (hb : ∀ x ∈ b, p x = false) :
    ∀ x ∈ a ++ b, p x = false := by
  intro x hx
  rcases List.mem_append.mp hx with h | h
  · exact ha x h
  · exact hb x h

lemma mem_routeSrcBlock {d : RenderData} {x : MapId} (hx : x ∈ routeSrcBlock d) :
    x = MapId.route := by
  unfold routeSrcBlock at hx
  split at hx
  · simp at hx
  · simpa using hx

lemma mem_routeLayerBlock {d : RenderData} {x : MapId} (hx : x ∈ routeLayerBlock d) :
    x = MapId.routeOutline ∨ x = MapId.routeLine := by
  unfold routeLayerBlock at hx
  split at hx
  · simp at hx
  · split at hx
    · simp at hx
      exact Or.inl hx
    · simpa using hx

lemma mem_congSrcBlockFrom {x : MapId} {s n : Nat} :
    x ∈ congSrcBlockFrom s n ↔ ∃ i, s ≤ i ∧ i < s + n ∧ x = MapId.congSeg i := by
  induction n generalizing s with
  | zero =>
    constructor
    · intro h
      simp [congSrcBlockFrom] at h
    · rintro ⟨i, h1, h2, _⟩
      omega
  | succ n ih =>
    simp only [congSrcBlockFrom, List.mem_cons, ih]
    constructor
    · rintro (rfl | ⟨i, h1, h2, rfl⟩)
      · exact ⟨s, Nat.le_refl s, by omega, rfl⟩
      · exact ⟨i, by omega, by omega, rfl⟩
    · rintro ⟨i, h1, h2, rfl⟩
      by_cases hi : i = s
      · subst hi
        exact Or.inl rfl
      · exact Or.inr ⟨i, by omega, by omega, rfl⟩

lemma mem_congLayerBlockFrom {x : MapId} {s n : Nat} :
    x ∈ congLayerBlockFrom s n ↔
      ∃ i, s ≤ i ∧ i < s + n ∧ (x = MapId.congSegOutline i ∨ x = MapId.congSegLine i) := by
  induction n generalizing s with
  | zero =>
    constructor
    · intro h
      simp [congLayerBlockFrom] at h
    · rintro ⟨i, h1, h2, _⟩
      omega
  | succ n ih =>
    simp only [congLayerBlockFrom, List.mem_cons, ih]
    constructor
    · rintro (rfl | rfl | ⟨i, h1, h2, hor⟩)
      · exact ⟨s, Nat.le_refl s, by omega, Or.inl rfl⟩
      · exact ⟨s, Nat.le_refl s, by omega, Or.inr rfl⟩
      · exact ⟨i, by omega, by omega, hor⟩
    · rintro ⟨i, h1, h2, hor⟩
      by_cases hi : i = s
      · subst hi
        rcases hor with rfl | rfl
        · exact Or.inl rfl
        · exact Or.inr (Or.inl rfl)
      · exact Or.inr (Or.inr ⟨i, by omega, by omega, hor⟩)

lemma congSrcBlock_pred {n : Nat} {p : MapId → Bool}
    (h : ∀ i, p (MapId.congSeg i) = false) :
    ∀ x ∈ congSrcBlock n, p x = false := by
  intro x hx
  obtain ⟨i, _, _, rfl⟩ := mem_congSrcBlockFrom.mp hx
  exact h i

lemma congLayerBlock_pred {n : Nat} {p : MapId → Bool}
    (h : ∀ i, p (MapId.congSegOutline i) = false ∧ p (MapId.congSegLine i) = false) :
    ∀ x ∈ congLayerBlock n, p x = false := by
  intro x hx
  obtain ⟨i, _, _, hor⟩ := mem_congLayerBlockFrom.mp hx
  rcases hor with rfl | rfl
  · exact (h i).1
  · exact (h i).2

lemma sampleSrcBlock_pred {d : RenderData} {p : MapId → Bool}
    (h : p MapId.samples = false) : ∀ x ∈ sampleSrcBlock d, p x = false := by
  intro x hx
  unfold sampleSrcBlock at hx
  split at hx
  · simp at hx
  · simp only [List.mem_singleton] at hx
    subst hx
    exact h

lemma sampleLayerBlock_pred {d : RenderData} {p : MapId → Bool}
    (h1 : p MapId.samplesCirclesStroke = false) (h2 : p MapId.samplesCircles = false)
    (h3 : p MapId.samplesLabels = false) : ∀ x ∈ sampleLayerBlock d, p x = false := by
  intro x hx
  unfold sampleLayerBlock at hx
  split at hx
  · simp at hx
  · simp only [List.mem_cons, List.not_mem_nil, or_false] at hx
    rcases hx with rfl | rfl | rfl
    · exact h1
    · exact h2
    · exact h3

lemma tollSrcBlock_pred {d : RenderData} {p : MapId → Bool}
    (h : p MapId.tolls = false) : ∀ x ∈ tollSrcBlock d, p x = false := by
  intro x hx
  unfold tollSrcBlock at hx
  split at hx
  · simp at hx
  · simp only [List.mem_singleton] at hx
    subst hx
    exact h

lemma tollLayerBlock_pred {d : RenderData} {p : MapId → Bool}
    (h1 : p MapId.tollCircles = false) (h2 : p MapId.tollLabels = false) :
    ∀ x ∈ tollLayerBlock d, p x = false := by
  intro x hx
  unfold tollLayerBlock at hx
  split at hx
  · simp at hx
  · simp only [List.mem_cons, List.not_mem_nil, or_false] at hx
    rcases hx with rfl | rfl
    · exact h1
    · exact h2

lemma accSrcBlock_pred {d : RenderData} {p : MapId → Bool}
    (h : p MapId.accidents = false) : ∀ x ∈ accSrcBlock d, p x = false := by
  intro x hx
  unfold accSrcBlock at hx
  split at hx
  · simp at hx
  · simp only [List.mem_singleton] at hx
    subst hx
    exact h

lemma accLayerBlock_pred {d : RenderData} {p : MapId → Bool}
    (h1 : p MapId.accidentCircles = false) (h2 : p MapId.accidentLabels = false) :
    ∀ x ∈ accLayerBlock d, p x = false := by
  intro x hx
  unfold accLayerBlock at hx
  split at hx
  · simp at hx
  · simp only [List.mem_cons, List.not_mem_nil, or_false] at hx
    rcases hx with rfl | rfl
    · exact h1
    · exact h2

lemma sigSrcBlock_pred {d : RenderData} {p : MapId → Bool}
    (h : p MapId.signals = false) : ∀ x ∈ sigSrcBlock d, p x = false := by
  intro x hx
  unfold sigSrcBlock at hx
  split at hx
  · simp at hx
  · simp only [List.mem_singleton] at hx
    subst hx
    exact h

lemma sigLayerBlock_pred {d : RenderData} {p : MapId → Bool}
    (h1 : p MapId.signalCircles = false) (h2 : p MapId.signalLabels = false) :
    ∀ x ∈ sigLayerBlock d, p x = false := by
  intro x hx
  unfold sigLayerBlock at hx
  split at hx
  · simp at hx
  · simp only [List.mem_cons, List.not_mem_nil, or_false] at hx
    rcases hx with rfl | rfl
    · exact h1
    · exact h2

lemma routeSrcBlock_pred {d : RenderData} {p : MapId → Bool}
    (h : p MapId.route = false) : ∀ x ∈ routeSrcBlock d, p x = false := by
  intro x hx
  rw [mem_routeSrcBlock hx]
  exact h

lemma routeLayerBlock_pred {d : RenderData} {p : MapId → Bool}
    (h1 : p MapId.routeOutline = false) (h2 : p MapId.routeLine = false) :
    ∀ x ∈ routeLayerBlock d, p x = false := by
  intro x hx
  rcases mem_routeLayerBlock hx with rfl | rfl
  · exact h1
  · exact h2

/- ───────────────────────── Rebuild normal form ───────────────────────── -/

/-- Source identifiers stripped by a full rebuild (route ones only when
the geometry ref is set). -/
def rebuildSrcStrip (d : RenderData) (x : MapId) : Bool :=
  routeSrcStrip d x || isCongPrefixed x || isSampleSrcId x || isTollSrcId x ||
    isAccSrcId x || isSigSrcId x

/-- Layer identifiers stripped by a full rebuild. -/
def rebuildLayerStrip (d : RenderData) (x : MapId) : Bool :=
  routeLayerStrip d x || isCongPrefixed x || isSampleLayerId x || isTollLayerId x ||
    isAccLayerId x || isSigLayerId x

/-- Sources appended by a full rebuild, in channel order. -/
def rebuildSrcBlock (d : RenderData) : List MapId :=
  routeSrcBlock d ++ congSrcBlock d.congestion.length ++ sampleSrcBlock d ++
    tollSrcBlock d ++ accSrcBlock d ++ sigSrcBlock d

/-- Layers appended by a full rebuild, in channel order (bottom to top). -/
def rebuildLayerBlock (d : RenderData) : List MapId :=
  routeLayerBlock d ++ congLayerBlock d.congestion.length ++ sampleLayerBlock d ++
    tollLayerBlock d ++ accLayerBlock d ++ sigLayerBlock d

lemma rebuildLayers_eq (d : RenderData) (m : MapState) :
    rebuildLayers d m =
      ⟨stripAdd (rebuildSrcStrip d) (rebuildSrcBlock d) m.sources,
       stripAdd (rebuildLayerStrip d) (rebuildLayerBlock d) m.layers⟩ := by
  unfold rebuildLayers
  simp only [addRouteLayers_eq, addCongestionLayers_eq, addSampleLayers_eq, addTollLayers_eq,
    addAccidentLayers_eq, addTrafficLightLayers_eq]
  rw [MapState.mk.injEq]
  constructor
  · rw [stripAdd_stripAdd _ _ _ _ _ (routeSrcBlock_pred rfl)]
    rw [stripAdd_stripAdd _ _ _ _ _
      (mem_append_pred (routeSrcBlock_pred rfl) (congSrcBlock_pred (fun _ => rfl)))]
    rw [stripAdd_stripAdd _ _ _ _ _
      (mem_append_pred
        (mem_append_pred (routeSrcBlock_pred rfl) (congSrcBlock_pred (fun _ => rfl)))
        (sampleSrcBlock_pred rfl))]
    rw [stripAdd_stripAdd _ _ _ _ _
      (mem_append_pred
        (mem_append_pred
          (mem_append_pred (routeSrcBlock_pred rfl) (congSrcBlock_pred (fun _ => rfl)))
          (sampleSrcBlock_pred rfl))
        (tollSrcBlock_pred rfl))]
    rw [stripAdd_stripAdd _ _ _ _ _
      (mem_append_pred
        (mem_append_pred
          (mem_append_pred
            (mem_append_pred (routeSrcBlock_pred rfl) (congSrcBlock_pred (fun _ => rfl)))
            (sampleSrcBlock_pred rfl))
          (tollSrcBlock_pred rfl))
        (accSrcBlock_pred rfl))]
    unfold stripAdd
    congr 1
  · rw [stripAdd_stripAdd _ _ _ _ _ (routeLayerBlock_pred rfl rfl)]
    rw [stripAdd_stripAdd _ _ _ _ _
      (mem_append_pred (routeLayerBlock_pred rfl rfl)
        (congLayerBlock_pred (fun _ => ⟨rfl, rfl⟩)))]
    rw [stripAdd_stripAdd _ _ _ _ _
      (mem_append_pred
        (mem_append_pred (routeLayerBlock_pred rfl rfl)
          (congLayerBlock_pred (fun _ => ⟨rfl, rfl⟩)))
        (sampleLayerBlock_pred rfl rfl rfl))]
    rw [stripAdd_stripAdd _ _ _ _ _
      (mem_append_pred
        (mem_append_pred
          (mem_append_pred (routeLayerBlock_pred rfl rfl)
            (congLayerBlock_pred (fun _ => ⟨rfl, rfl⟩)))
          (sampleLayerBlock_pred rfl rfl rfl))
        (tollLayerBlock_pred rfl rfl))]
    rw [stripAdd_stripAdd _ _ _ _ _
      (mem_append_pred
        (mem_append_pred
          (mem_append_pred
            (mem_append_pred (routeLayerBlock_pred rfl rfl)
              (congLayerBlock_pred (fun _ => ⟨rfl, rfl⟩)))
            (sampleLayerBlock_pred rfl rfl rfl))
          (tollLayerBlock_pred rfl rfl))
        (accLayerBlock_pred rfl rfl))]
    unfold stripAdd
    congr 1

lemma congestionEffect_eq (d : RenderData) (m : MapState) :
    congestionEffect d m =
      ⟨stripAdd (fun x => routeSrcStrip d x || isCongPrefixed x)
        (routeSrcBlock d ++ congSrcBlock d.congestion.length) m.sources,
       stripAdd (fun x => routeLayerStrip d x || isCongPrefixed x)
        (routeLayerBlock d ++ congLayerBlock d.congestion.length) m.layers⟩ := by
  unfold congestionEffect
  simp only [addRouteLayers_eq, addCongestionLayers_eq]
  refine MapState.ext ?_ ?_
  · rw [stripAdd_stripAdd _ _ _ _ _ (routeSrcBlock_pred rfl)]
  · rw [stripAdd_stripAdd _ _ _ _ _ (routeLayerBlock_pred rfl rfl)]

/- ───────────────────────── Blocks satisfy their strips ───────────────────────── -/

lemma routeSrcBlock_strips (d : RenderData) :
    ∀ x ∈ routeSrcBlock d, routeSrcStrip d x = true := by
  intro x hx
  cases hg : d.routeGeom with
  | none =>
    unfold routeSrcBlock at hx
    rw [hg] at hx
    simp at hx
  | some g =>
    unfold routeSrcBlock at hx
    rw [hg] at hx
    simp only [List.mem_singleton] at hx
    subst hx
    simp [routeSrcStrip, hg, isRouteSrcId]

lemma routeLayerBlock_strips (d : RenderData) :
    ∀ x ∈ routeLayerBlock d, routeLayerStrip d x = true := by
  intro x hx
  cases hg : d.routeGeom with
  | none =>
    unfold routeLayerBlock at hx
    rw [hg] at hx
    simp at hx
  | some g =>
    unfold routeLayerBlock at hx
    rw [hg] at hx
    dsimp only at hx
    split at hx
    · simp only [List.mem_singleton] at hx
      subst hx
      simp [routeLayerStrip, hg, isRouteLayerId]
    · simp only [List.mem_cons, List.not_mem_nil, or_false] at hx
      rcases hx with rfl | rfl <;> simp [routeLayerStrip, hg, isRouteLayerId]

lemma rebuildSrcBlock_strips (d : RenderData) :
    ∀ x ∈ rebuildSrcBlock d, rebuildSrcStrip d x = true := by
  intro x hx
  simp only [rebuildSrcBlock, List.mem_append] at hx
  rcases hx with ((((h | h) | h) | h) | h) | h
  · simp [rebuildSrcStrip, routeSrcBlock_strips d x h]
  · obtain ⟨i, _, _, rfl⟩ := mem_congSrcBlockFrom.mp h
    simp [rebuildSrcStrip, isCongPrefixed]
  · unfold sampleSrcBlock at h
    split at h
    · simp at h
    · simp only [List.mem_singleton] at h
      subst h
      simp [rebuildSrcStrip, isSampleSrcId]
  · unfold tollSrcBlock at h
    split at h
    · simp at h
    · simp only [List.mem_singleton] at h
      subst h
      simp [rebuildSrcStrip, isTollSrcId]
  · unfold accSrcBlock at h
    split at h
    · simp at h
    · simp only [List.mem_singleton] at h
      subst h
      simp [rebuildSrcStrip, isAccSrcId]
  · unfold sigSrcBlock at h
    split at h
    · simp at h
    · simp only [List.mem_singleton] at h
      subst h
      simp [rebuildSrcStrip, isSigSrcId]

lemma rebuildLayerBlock_strips (d : RenderData) :
    ∀ x ∈ rebuildLayerBlock d, rebuildLayerStrip d x = true := by
  intro x hx
  simp only [rebuildLayerBlock, List.mem_append] at hx
  rcases hx with ((((h | h) | h) | h) | h) | h
  · simp [rebuildLayerStrip, routeLayerBlock_strips d x h]
  · obtain ⟨i, _, _, hor⟩ := mem_congLayerBlockFrom.mp h
    rcases hor with rfl | rfl <;> simp [rebuildLayerStrip, isCongPrefixed]
  · unfold sampleLayerBlock at h
    split at h
    · simp at h
    · simp only [List.mem_cons, List.not_mem_nil, or_false] at h
      rcases h with rfl | rfl | rfl <;> simp [rebuildLayerStrip, isSampleLayerId]
  · unfold tollLayerBlock at h
    split at h
    · simp at h
    · simp only [List.mem_cons, List.not_mem_nil, or_false] at h
      rcases h with rfl | rfl <;> simp [rebuildLayerStrip, isTollLayerId]
  · unfold accLayerBlock at h
    split at h
    · simp at h
    · simp only [List.mem_cons, List.not_mem_nil, or_false] at h
      rcases h with rfl | rfl <;> simp [rebuildLayerStrip, isAccLayerId]
  · unfold sigLayerBlock at h
    split at h
    · simp at h
    · simp only [List.mem_cons, List.not_mem_nil, or_false] at h
      rcases h with rfl | rfl <;> simp [rebuildLayerStrip, isSigLayerId]

/-- C5.  Rebuild is idempotent: for every fixed data snapshot, running
the full rebuild twice in succession leaves exactly the same sources and
layers on the map surface as running it once — no duplicate identifiers
and no drawable left over from the first call — because every channel
removes its reserved identifiers before re-adding them. -/
theorem rebuild_idempotent (d : RenderData) (m : MapState) :
    rebuildLayers d (rebuildLayers d m) = rebuildLayers d m := by
  rw [rebuildLayers_eq d m, rebuildLayers_eq d]
  rw [MapState.mk.injEq]
  constructor
  · exact stripAdd_idem _ _ _ (rebuildSrcBlock_strips d)
  · exact stripAdd_idem _ _ _ (rebuildLayerBlock_strips d)

/- ───────────────────────── Concrete data for witnesses ───────────────────────── -/

/-- A concrete route geometry. -/
def geomA : RouteGeometry := ⟨"LineString", [(0, 0), (1, 1)]⟩

/-- A concrete toll point. -/
def tollA : TollPoint := ⟨0, 0, "Pedagio", "Op"⟩

/-- A concrete accident point. -/
def accidentA : AccidentPoint := ⟨0, 0, "colisao", "alta", "d", 0⟩

/-- A concrete traffic-light point. -/
def signalA : TrafficLightPoint := ⟨0, 0, 1, "s", 30, 5, 25, none⟩

/-- A concrete congestion segment. -/
def segA : CongestionSegment := ⟨[(0, 0), (1, 1)], "free", 1, 60, "c"⟩

/-- A concrete weather sample. -/
def sampleA : WeatherSample :=
  ⟨0, 0, "t", 0, 0, none, none, none, none, "none", "none", "src", "d"⟩

/-- Data with all channels populated and two congestion segments. -/
def dCw1 : RenderData := ⟨some geomA, some [sampleA], [tollA], [accidentA], [segA, segA], [signalA]⟩

/-- The successor snapshot with a single congestion segment. -/
def dCw2 : RenderData := ⟨some geomA, some [sampleA], [tollA], [accidentA], [segA], [signalA]⟩

/- ───────────────────────── Congestion membership lemmas ───────────────────────── -/

lemma congSeg_mem_srcBlock {i n : Nat} : MapId.congSeg i ∈ congSrcBlock n ↔ i < n := by
  rw [congSrcBlock, mem_congSrcBlockFrom]
  constructor
  · rintro ⟨j, _, hj, heq⟩
    rw [MapId.congSeg.injEq] at heq
    omega
  · intro h
    exact ⟨i, Nat.zero_le i, by omega, rfl⟩

lemma congSegOutline_mem_layerBlock {i n : Nat} :
    MapId.congSegOutline i ∈ congLayerBlock n ↔ i < n := by
  rw [congLayerBlock, mem_congLayerBlockFrom]
  constructor
  · rintro ⟨j, _, hj, heq | heq⟩
    · rw [MapId.congSegOutline.injEq] at heq
      omega
    · simp at heq
  · intro h
    exact ⟨i, Nat.zero_le i, by omega, Or.inl rfl⟩

lemma congSegLine_mem_layerBlock {i n : Nat} :
    MapId.congSegLine i ∈ congLayerBlock n ↔ i < n := by
  rw [congLayerBlock, mem_congLayerBlockFrom]
  constructor
  · rintro ⟨j, _, hj, heq | heq⟩
    · simp at heq
    · rw [MapId.congSegLine.injEq] at heq
      omega
  · intro h
    exact ⟨i, Nat.zero_le i, by omega, Or.inr rfl⟩

lemma congSrcBlock_filter_self (n : Nat) :
    (congSrcBlock n).filter isCongPrefixed = congSrcBlock n := by
  rw [List.filter_eq_self]
  intro a ha
  obtain ⟨i, _, _, rfl⟩ := mem_congSrcBlockFrom.mp ha
  rfl

lemma congLayerBlock_filter_self (n : Nat) :
    (congLayerBlock n).filter isCongPrefixed = congLayerBlock n := by
  rw [List.filter_eq_self]
  intro a ha
  obtain ⟨i, _, _, hor⟩ := mem_congLayerBlockFrom.mp ha
  rcases hor with rfl | rfl <;> rfl

/-- C4.  For two successive results whose congestion segment counts are N
and then M with M < N, after the rebuild triggered by the second result
exactly the M congestion-segment sources of the new enumeration exist,
each with its outline and line layers, and no congestion layer or source
of the previous N-segment generation remains on the surface. -/
theorem congestion_rebuild_exact_count (d1 d2 : RenderData) (m : MapState)
    (_hdrop : d2.congestion.length < d1.congestion.length) :
    ((congestionEffect d2 (congestionEffect d1 m)).sources.filter isCongPrefixed =
      congSrcBlock d2.congestion.length) ∧
    ((congestionEffect d2 (congestionEffect d1 m)).layers.filter isCongPrefixed =
      congLayerBlock d2.congestion.length) ∧
    (∀ i, d2.congestion.length ≤ i →
      MapId.congSeg i ∉ (congestionEffect d2 (congestionEffect d1 m)).sources ∧
      MapId.congSegOutline i ∉ (congestionEffect d2 (congestionEffect d1 m)).layers ∧
      MapId.congSegLine i ∉ (congestionEffect d2 (congestionEffect d1 m)).layers) ∧
    (∀ i, i < d2.congestion.length →
      MapId.congSeg i ∈ (congestionEffect d2 (congestionEffect d1 m)).sources ∧
      MapId.congSegOutline i ∈ (congestionEffect d2 (congestionEffect d1 m)).layers ∧
      MapId.congSegLine i ∈ (congestionEffect d2 (congestionEffect d1 m)).layers) := by
  rw [congestionEffect_eq d2]
  refine ⟨?_, ?_, ?_, ?_⟩
  · rw [filter_stripAdd _ _ _ _ (fun x hx => by simp [hx]), List.filter_append,
      List.filter_eq_nil_iff.mpr (fun a ha => by rw [mem_routeSrcBlock ha]; simp [isCongPrefixed]),
      List.nil_append, congSrcBlock_filter_self]
  · rw [filter_stripAdd _ _ _ _ (fun x hx => by simp [hx]), List.filter_append,
      List.filter_eq_nil_iff.mpr
        (fun a ha => by rcases mem_routeLayerBlock ha with rfl | rfl <;> simp [isCongPrefixed]),
      List.nil_append, congLayerBlock_filter_self]
  · intro i hi
    refine ⟨?_, ?_, ?_⟩
    · refine not_mem_stripAdd (by simp [isCongPrefixed]) ?_
      intro hmem
      rcases List.mem_append.mp hmem with h | h
      · exact absurd (mem_routeSrcBlock h) (by simp)
      · exact absurd (congSeg_mem_srcBlock.mp h) (by omega)
    · refine not_mem_stripAdd (by simp [isCongPrefixed]) ?_
      intro hmem
      rcases List.mem_append.mp hmem with h | h
      · rcases mem_routeLayerBlock h with heq | heq <;> simp at heq
      · exact absurd (congSegOutline_mem_layerBlock.mp h) (by omega)
    · refine not_mem_stripAdd (by simp [isCongPrefixed]) ?_
      intro hmem
      rcases List.mem_append.mp hmem with h | h
      · rcases mem_routeLayerBlock h with heq | heq <;> simp at heq
      · exact absurd (congSegLine_mem_layerBlock.mp h) (by omega)
  · intro i hi
    refine ⟨?_, ?_, ?_⟩
    · exact List.mem_append.mpr
        (Or.inr (List.mem_append.mpr (Or.inr (congSeg_mem_srcBlock.mpr hi))))
    · exact List.mem_append.mpr
        (Or.inr (List.mem_append.mpr (Or.inr (congSegOutline_mem_layerBlock.mpr hi))))
    · exact List.mem_append.mpr
        (Or.inr (List.mem_append.mpr (Or.inr (congSegLine_mem_layerBlock.mpr hi))))

/-- Witness for C4: counts drop from 2 to 1; exactly segment 0 remains,
segment 1 is gone. -/
theorem congestion_rebuild_exact_count_witness :
    ((congestionEffect dCw2 (congestionEffect dCw1 emptyMap)).sources.filter isCongPrefixed =
      congSrcBlock 1) ∧
    MapId.congSeg 1 ∉ (congestionEffect dCw2 (congestionEffect dCw1 emptyMap)).sources ∧
    MapId.congSeg 0 ∈ (congestionEffect dCw2 (congestionEffect dCw1 emptyMap)).sources :=
  ⟨(congestion_rebuild_exact_count dCw1 dCw2 emptyMap (by decide)).1,
   ((congestion_rebuild_exact_count dCw1 dCw2 emptyMap (by decide)).2.2.1 1 (by decide)).1,
   ((congestion_rebuild_exact_count dCw1 dCw2 emptyMap (by decide)).2.2.2 0 (by decide)).1⟩

/- ───────────────────────── Draw order ───────────────────────── -/

/-- All layer identifiers of the four point channels (tolls, accidents,
signals, weather samples), circles, strokes and labels alike. -/
def isPointChannelLayerId : MapId → Bool
  | MapId.samplesCirclesStroke | MapId.samplesCircles | MapId.samplesLabels
  | MapId.tollCircles | MapId.tollLabels
  | MapId.accidentCircles | MapId.accidentLabels
  | MapId.signalCircles | MapId.signalLabels => true
  | _ => false

/-- The circle (point-marker) layers of the point channels. -/
def isPointCircleId : MapId → Bool
  | MapId.samplesCirclesStroke | MapId.samplesCircles
  | MapId.tollCircles | MapId.accidentCircles | MapId.signalCircles => true
  | _ => false

/-- The text label layers. -/
def isTextLabelId : MapId → Bool
  | MapId.samplesLabels | MapId.tollLabels | MapId.accidentLabels
  | MapId.signalLabels => true
  | _ => false

/-- Every layer of class `p` is drawn below (appears before) every layer
of class `q` in the draw-order list `l`. -/
def layerBelow (p q : MapId → Bool) (l : List MapId) : Prop :=
  ∀ i j (hi : i < l.length) (hj : j < l.length),
    p (l.get ⟨i, hi⟩) = true → q (l.get ⟨j, hj⟩) = true → i < j

lemma layerBelow_append {p q : MapId → Bool} {A B : List MapId}
    (hA : ∀ x ∈ A, q x = false) (hB : ∀ x ∈ B, p x = false) :
    layerBelow p q (A ++ B) := by
  intro i j hi hj hp hq
  have hlen : (A ++ B).length = A.length + B.length := List.length_append ..
  by_contra hij
  push_neg at hij
  have hiA : i < A.length := by
    by_contra hge
    push_neg at hge
    have hiB : i - A.length < B.length := by
      rw [hlen] at hi
      omega
    have hgb : (A ++ B).get ⟨i, hi⟩ = B.get ⟨i - A.length, hiB⟩ := by
      simp only [List.get_eq_getElem]
      rw [List.getElem_append, dif_neg (by omega)]
    rw [hgb] at hp
    rw [hB _ (List.get_mem ..)] at hp
    exact absurd hp (by simp)
  have hjA : j < A.length := by omega
  have hga : (A ++ B).get ⟨j, hj⟩ = A.get ⟨j, hjA⟩ := by
    simp only [List.get_eq_getElem]
    rw [List.getElem_append, dif_pos hjA]
  rw [hga] at hq
  rw [hA _ (List.get_mem ..)] at hq
  exact absurd hq (by simp)

lemma isPointChannelLayerId_split (x : MapId) :
    isPointChannelLayerId x =
      (isSampleLayerId x || isTollLayerId x || isAccLayerId x || isSigLayerId x) := by
  cases x <;> rfl

lemma mem_stripped_layers {d : RenderData} {x : MapId} {l : List MapId}
    (hx : x ∈ l.filter (fun y => !(rebuildLayerStrip d y))) :
    rebuildLayerStrip d x = false := by
  have h := (List.mem_filter.mp hx).2
  simpa using h

lemma strip_false_cong {d : RenderData} {x : MapId} (h : rebuildLayerStrip d x = false) :
    isCongPrefixed x = false := by
  unfold rebuildLayerStrip at h
  simp only [Bool.or_eq_false_iff] at h
  exact h.1.1.1.1.2

lemma strip_false_point {d : RenderData} {x : MapId} (h : rebuildLayerStrip d x = false) :
    isPointChannelLayerId x = false := by
  unfold rebuildLayerStrip at h
  simp only [Bool.or_eq_false_iff] at h
  rw [isPointChannelLayerId_split, h.1.1.1.2, h.1.1.2, h.1.2, h.2]
  rfl

/-- C6 amended.  After every full rebuild the route underlay layers are
below the congestion segment layers, the congestion layers are below all
point-channel layers, and the route layers are below all point-channel
layers.  (The original claim's further requirement that every
point-channel layer lies below every text label layer is false — labels
are interleaved per channel — and partial single-channel rebuilds do not
preserve the order; see the counterexample.) -/
theorem rebuild_draw_order (d : RenderData) (m : MapState) :
    layerBelow isRouteLayerId isCongPrefixed (rebuildLayers d m).layers ∧
    layerBelow isCongPrefixed isPointChannelLayerId (rebuildLayers d m).layers ∧
    layerBelow isRouteLayerId isPointChannelLayerId (rebuildLayers d m).layers := by
  rw [rebuildLayers_eq]
  dsimp only
  refine ⟨?_, ?_, ?_⟩
  · rw [show stripAdd (rebuildLayerStrip d) (rebuildLayerBlock d) m.layers =
      (m.layers.filter (fun x => !(rebuildLayerStrip d x)) ++ routeLayerBlock d) ++
        (congLayerBlock d.congestion.length ++ (sampleLayerBlock d ++ (tollLayerBlock d ++
          (accLayerBlock d ++ sigLayerBlock d)))) from by
      simp [stripAdd, rebuildLayerBlock, List.append_assoc]]
    exact layerBelow_append
      (mem_append_pred (fun x hx => strip_false_cong (mem_stripped_layers hx))
        (routeLayerBlock_pred rfl rfl))
      (mem_append_pred (congLayerBlock_pred (fun _ => ⟨rfl, rfl⟩))
        (mem_append_pred (sampleLayerBlock_pred rfl rfl rfl)
          (mem_append_pred (tollLayerBlock_pred rfl rfl)
            (mem_append_pred (accLayerBlock_pred rfl rfl) (sigLayerBlock_pred rfl rfl)))))
  · rw [show stripAdd (rebuildLayerStrip d) (rebuildLayerBlock d) m.layers =
      ((m.layers.filter (fun x => !(rebuildLayerStrip d x)) ++ routeLayerBlock d) ++
        congLayerBlock d.congestion.length) ++ (sampleLayerBlock d ++ (tollLayerBlock d ++
          (accLayerBlock d ++ sigLayerBlock d))) from by
      simp [stripAdd, rebuildLayerBlock, List.append_assoc]]
    exact layerBelow_append
      (mem_append_pred
        (mem_append_pred (fun x hx => strip_false_point (mem_stripped_layers hx))
          (routeLayerBlock_pred rfl rfl))
        (congLayerBlock_pred (fun _ => ⟨rfl, rfl⟩)))
      (mem_append_pred (sampleLayerBlock_pred rfl rfl rfl)
        (mem_append_pred (tollLayerBlock_pred rfl rfl)
          (mem_append_pred (accLayerBlock_pred rfl rfl) (sigLayerBlock_pred rfl rfl))))
  · rw [show stripAdd (rebuildLayerStrip d) (rebuildLayerBlock d) m.layers =
      ((m.layers.filter (fun x => !(rebuildLayerStrip d x)) ++ routeLayerBlock d) ++
        congLayerBlock d.congestion.length) ++ (sampleLayerBlock d ++ (tollLayerBlock d ++
          (accLayerBlock d ++ sigLayerBlock d))) from by
      simp [stripAdd, rebuildLayerBlock, List.append_assoc]]
    exact layerBelow_append
      (mem_append_pred
        (mem_append_pred (fun x hx => strip_false_point (mem_stripped_layers hx))
          (routeLayerBlock_pred rfl rfl))
        (congLayerBlock_pred (fun _ => ⟨rfl, rfl⟩)))
      (mem_append_pred (sampleLayerBlock_pred (by rfl) (by rfl) (by rfl))
        (mem_append_pred (tollLayerBlock_pred (by rfl) (by rfl))
          (mem_append_pred (accLayerBlock_pred (by rfl) (by rfl))
            (sigLayerBlock_pred (by rfl) (by rfl)))))

/-- Data of the C6 counterexample's full rebuild: one accident and one
traffic-light point. -/
def dOrderA : RenderData := ⟨none, none, [], [accidentA], [], [signalA]⟩

/-- Data of the C6 counterexample's congestion-triggered partial rebuild:
geometry, one toll and one congestion segment. -/
def dOrderB : RenderData := ⟨some geomA, none, [tollA], [], [segA], []⟩

/-- C6 counterexample.  The claim's draw-order invariant places every
point-channel layer below every text label layer after every rebuild; but
a full rebuild with an accident and a signal puts `signal-circles` (a
point layer, index 2) above `accident-labels` (a text label, index 1).
Moreover, after a congestion-triggered partial rebuild the congestion
layers sit above the toll circles, so the congestion-below-points part
fails for single-channel rebuilds too. -/
theorem draw_order_claim_counterexample :
    ¬ layerBelow isPointCircleId isTextLabelId (rebuildLayers dOrderA emptyMap).layers ∧
    ¬ layerBelow isCongPrefixed isPointChannelLayerId
      (congestionEffect dOrderB (rebuildLayers dOrderB emptyMap)).layers := by
  constructor
  · intro h
    have h21 := h 2 1 (by decide) (by decide) (by decide) (by decide)
    omega
  · intro h
    have h30 := h 3 0 (by decide) (by decide) (by decide) (by decide)
    omega

/-- Witness for C6's amended statement: on a fully populated snapshot the
route outline (layer 0) is below the first congestion outline (layer 1),
and below the sample stroke circles (layer 5). -/
theorem rebuild_draw_order_witness : (0 : Nat) < 1 ∧ (0 : Nat) < 5 :=
  ⟨(rebuild_draw_order dCw1 emptyMap).1 0 1 (by decide) (by decide) (by decide) (by decide),
   (rebuild_draw_order dCw1 emptyMap).2.2 0 5 (by decide) (by decide) (by decide) (by decide)⟩

/- ───────────────────────── Empty-channel rebuilds ───────────────────────── -/

lemma rebuild_layer_filter_nil (d : RenderData) (m : MapState) (p : MapId → Bool)
    (himp : ∀ x, p x = true → rebuildLayerStrip d x = true)
    (hblock : ∀ a ∈ rebuildLayerBlock d, p a = false) :
    (rebuildLayers d m).layers.filter p = [] := by
  rw [rebuildLayers_eq]
  dsimp only
  rw [filter_stripAdd _ _ _ _ himp, List.filter_eq_nil_iff]
  intro a ha hpa
  rw [hblock a ha] at hpa
  exact absurd hpa (by simp)

lemma rebuild_src_filter_nil (d : RenderData) (m : MapState) (p : MapId → Bool)
    (himp : ∀ x, p x = true → rebuildSrcStrip d x = true)
    (hblock : ∀ a ∈ rebuildSrcBlock d, p a = false) :
    (rebuildLayers d m).sources.filter p = [] := by
  rw [rebuildLayers_eq]
  dsimp only
  rw [filter_stripAdd _ _ _ _ himp, List.filter_eq_nil_iff]
  intro a ha hpa
  rw [hblock a ha] at hpa
  exact absurd hpa (by simp)

/-- The route-only snapshot used to exhibit the stale route channel. -/
def dRouteOnly : RenderData := ⟨some geomA, none, [], [], [], []⟩

/-- A snapshot in which every channel's data is empty or absent. -/
def dAllEmpty : RenderData := ⟨none, none, [], [], [], []⟩

/-- The surface left by a rebuild with route geometry present. -/
def mStale : MapState := rebuildLayers dRouteOnly emptyMap

/-- C8 counterexample.  The claim says every channel's drawables are
removed by a rebuild whose data for that channel is empty or absent.  For
the route channel this fails: `addRouteLayers` returns before its
removals when the geometry is absent, so a rebuild over a surface holding
route drawables with `routeGeom = none` leaves `route-outline`,
`route-line` and the `route` source in place. -/
theorem route_absent_not_removed_counterexample :
    MapId.routeOutline ∈ (rebuildLayers dAllEmpty mStale).layers ∧
    MapId.routeLine ∈ (rebuildLayers dAllEmpty mStale).layers ∧
    MapId.route ∈ (rebuildLayers dAllEmpty mStale).sources := by
  refine ⟨by decide, by decide, by decide⟩

/-- C8 amended.  For the congestion, sample, toll, accident and
traffic-light channels, a rebuild with empty or absent data for the
channel removes all of that channel's layers and sources (the rebuild is
a total function, so no error arises and absence is a valid steady
state); the route channel is the exception: with an absent geometry
`addRouteLayers` leaves the surface untouched, keeping any stale route
drawables. -/
theorem empty_channel_rebuild (d : RenderData) (m : MapState) :
    (d.routeGeom = none → addRouteLayers d m = m) ∧
    (d.congestion = [] →
      (rebuildLayers d m).layers.filter isCongPrefixed = [] ∧
      (rebuildLayers d m).sources.filter isCongPrefixed = []) ∧
    (sampleAbsent d = true →
      (rebuildLayers d m).layers.filter isSampleLayerId = [] ∧
      (rebuildLayers d m).sources.filter isSampleSrcId = []) ∧
    (d.tolls = [] →
      (rebuildLayers d m).layers.filter isTollLayerId = [] ∧
      (rebuildLayers d m).sources.filter isTollSrcId = []) ∧
    (d.accidents = [] →
      (rebuildLayers d m).layers.filter isAccLayerId = [] ∧
      (rebuildLayers d m).sources.filter isAccSrcId = []) ∧
    (d.signals = [] →
      (rebuildLayers d m).layers.filter isSigLayerId = [] ∧
      (rebuildLayers d m).sources.filter isSigSrcId = []) := by
  refine ⟨?_, ?_, ?_, ?_, ?_, ?_⟩
  · intro hg
    simp [addRouteLayers, hg]
  · intro h
    constructor
    · refine rebuild_layer_filter_nil d m _ (fun x hx => by simp [rebuildLayerStrip, hx]) ?_
      exact mem_append_pred (mem_append_pred (mem_append_pred (mem_append_pred
        (mem_append_pred (routeLayerBlock_pred rfl rfl)
          (fun x hx => absurd hx (by simp [h, congLayerBlock, congLayerBlockFrom])))
        (sampleLayerBlock_pred rfl rfl rfl)) (tollLayerBlock_pred rfl rfl))
        (accLayerBlock_pred rfl rfl)) (sigLayerBlock_pred rfl rfl)
    · refine rebuild_src_filter_nil d m _ (fun x hx => by simp [rebuildSrcStrip, hx]) ?_
      exact mem_append_pred (mem_append_pred (mem_append_pred (mem_append_pred
        (mem_append_pred (routeSrcBlock_pred rfl)
          (fun x hx => absurd hx (by simp [h, congSrcBlock, congSrcBlockFrom])))
        (sampleSrcBlock_pred rfl)) (tollSrcBlock_pred rfl))
        (accSrcBlock_pred rfl)) (sigSrcBlock_pred rfl)
  · intro h
    constructor
    · refine rebuild_layer_filter_nil d m _ (fun x hx => by simp [rebuildLayerStrip, hx]) ?_
      exact mem_append_pred (mem_append_pred (mem_append_pred (mem_append_pred
        (mem_append_pred (routeLayerBlock_pred rfl rfl)
          (congLayerBlock_pred (fun _ => ⟨rfl, rfl⟩)))
        (fun x hx => absurd hx (by simp [sampleLayerBlock, h]))) (tollLayerBlock_pred rfl rfl))
        (accLayerBlock_pred rfl rfl)) (sigLayerBlock_pred rfl rfl)
    · refine rebuild_src_filter_nil d m _ (fun x hx => by simp [rebuildSrcStrip, hx]) ?_
      exact mem_append_pred (mem_append_pred (mem_append_pred (mem_append_pred
        (mem_append_pred (routeSrcBlock_pred rfl)
          (congSrcBlock_pred (fun _ => rfl)))
        (fun x hx => absurd hx (by simp [sampleSrcBlock, h]))) (tollSrcBlock_pred rfl))
        (accSrcBlock_pred rfl)) (sigSrcBlock_pred rfl)
  · intro h
    constructor
    · refine rebuild_layer_filter_nil d m _ (fun x hx => by simp [rebuildLayerStrip, hx]) ?_
      exact mem_append_pred (mem_append_pred (mem_append_pred (mem_append_pred
        (mem_append_pred (routeLayerBlock_pred rfl rfl)
          (congLayerBlock_pred (fun _ => ⟨rfl, rfl⟩)))
        (sampleLayerBlock_pred rfl rfl rfl))
        (fun x hx => absurd hx (by simp [tollLayerBlock, h])))
        (accLayerBlock_pred rfl rfl)) (sigLayerBlock_pred rfl rfl)
    · refine rebuild_src_filter_nil d m _ (fun x hx => by simp [rebuildSrcStrip, hx]) ?_
      exact mem_append_pred (mem_append_pred (mem_append_pred (mem_append_pred
        (mem_append_pred (routeSrcBlock_pred rfl)
          (congSrcBlock_pred (fun _ => rfl)))
        (sampleSrcBlock_pred rfl))
        (fun x hx => absurd hx (by simp [tollSrcBlock, h])))
        (accSrcBlock_pred rfl)) (sigSrcBlock_pred rfl)
  · intro h
    constructor
    · refine rebuild_layer_filter_nil d m _ (fun x hx => by simp [rebuildLayerStrip, hx]) ?_
      exact mem_append_pred (mem_append_pred (mem_append_pred (mem_append_pred
        (mem_append_pred (routeLayerBlock_pred rfl rfl)
          (congLayerBlock_pred (fun _ => ⟨rfl, rfl⟩)))
        (sampleLayerBlock_pred rfl rfl rfl)) (tollLayerBlock_pred rfl rfl))
        (fun x hx => absurd hx (by simp [accLayerBlock, h]))) (sigLayerBlock_pred rfl rfl)
    · refine rebuild_src_filter_nil d m _ (fun x hx => by simp [rebuildSrcStrip, hx]) ?_
      exact mem_append_pred (mem_append_pred (mem_append_pred (mem_append_pred
        (mem_append_pred (routeSrcBlock_pred rfl)
          (congSrcBlock_pred (fun _ => rfl)))
        (sampleSrcBlock_pred rfl)) (tollSrcBlock_pred rfl))
        (fun x hx => absurd hx (by simp [accSrcBlock, h]))) (sigSrcBlock_pred rfl)
  · intro h
    constructor
    · refine rebuild_layer_filter_nil d m _ (fun x hx => by simp [rebuildLayerStrip, hx]) ?_
      exact mem_append_pred (mem_append_pred (mem_append_pred (mem_append_pred
        (mem_append_pred (routeLayerBlock_pred rfl rfl)
          (congLayerBlock_pred (fun _ => ⟨rfl, rfl⟩)))
        (sampleLayerBlock_pred rfl rfl rfl)) (tollLayerBlock_pred rfl rfl))
        (accLayerBlock_pred rfl rfl)) (fun x hx => absurd hx (by simp [sigLayerBlock, h]))
    · refine rebuild_src_filter_nil d m _ (fun x hx => by simp [rebuildSrcStrip, hx]) ?_
      exact mem_append_pred (mem_append_pred (mem_append_pred (mem_append_pred
        (mem_append_pred (routeSrcBlock_pred rfl)
          (congSrcBlock_pred (fun _ => rfl)))
        (sampleSrcBlock_pred rfl)) (tollSrcBlock_pred rfl))
        (accSrcBlock_pred rfl)) (fun x hx => absurd hx (by simp [sigSrcBlock, h]))

/-- Witness for C8's amended statement at the all-empty snapshot over the
stale route surface: the route channel is untouched while the other
channels' identifier classes are absent. -/
theorem empty_channel_rebuild_witness :
    addRouteLayers dAllEmpty mStale = mStale ∧
    (rebuildLayers dAllEmpty mStale).layers.filter isCongPrefixed = [] ∧
    (rebuildLayers dAllEmpty mStale).layers.filter isTollLayerId = [] ∧
    (rebuildLayers dAllEmpty mStale).layers.filter isSigLayerId = [] :=
  ⟨(empty_channel_rebuild dAllEmpty mStale).1 rfl,
   ((empty_channel_rebuild dAllEmpty mStale).2.1 rfl).1,
   ((empty_channel_rebuild dAllEmpty mStale).2.2.2.1 rfl).1,
   ((empty_channel_rebuild dAllEmpty mStale).2.2.2.2.2 rfl).1⟩

/- ───────────────────────── Popup interaction model ───────────────────────── -/

/-- The popup-related state of `MapView.tsx`: whether `clickPopupRef`
holds a popup object (the ref is assigned on click and never reset to
null), whether that persistent popup is currently on the map, and whether
a transient hover popup is currently on the map. -/
structure PopupState where
  clickRef : Bool
  clickOpen : Bool
  hoverOpen : Bool
deriving DecidableEq, Repr

/-- The popup interaction events handled in the map init effect:
click on samples-circles (lines 509-532), mouseenter / mouseleave on
samples-circles (534-564), on toll-circles (567-586), on accident-circles
(589-610), on signal-circles (613-633), and the user pressing the close
button of the persistent popup. -/
inductive PopupEv where
  | clickSample
  | hoverSample
  | leaveSample
  | hoverToll
  | leaveToll
  | hoverAccident
  | leaveAccident
  | hoverSignal
  | leaveSignal
  | closePersistent

/-- One step of the popup handlers.  `clickSample` removes both popups
and installs a new persistent one.  `hoverSample` returns early when
`clickPopupRef.current` is set.  The toll / accident / signal hover
handlers install a hover popup unconditionally.  Closing the persistent
popup removes it from the map but leaves `clickPopupRef.current`
assigned (no close listener resets it). -/
def stepPopup (s : PopupState) : PopupEv → PopupState
  | PopupEv.clickSample => ⟨true, true, false⟩
  | PopupEv.hoverSample => if s.clickRef then s else ⟨s.clickRef, s.clickOpen, true⟩
  | PopupEv.leaveSample => ⟨s.clickRef, s.clickOpen, false⟩
  | PopupEv.hoverToll => ⟨s.clickRef, s.clickOpen, true⟩
  | PopupEv.leaveToll => ⟨s.clickRef, s.clickOpen, false⟩
  | PopupEv.hoverAccident => ⟨s.clickRef, s.clickOpen, true⟩
  | PopupEv.leaveAccident => ⟨s.clickRef, s.clickOpen, false⟩
  | PopupEv.hoverSignal => ⟨s.clickRef, s.clickOpen, true⟩
  | PopupEv.leaveSignal => ⟨s.clickRef, s.clickOpen, false⟩
  | PopupEv.closePersistent => ⟨s.clickRef, false, s.hoverOpen⟩

/-- Run a sequence of popup events. -/
def runPopup (s : PopupState) : List PopupEv → PopupState
  | [] => s
  | e :: es => runPopup (stepPopup s e) es

/-- The popup state before any interaction. -/
def initialPopupState : PopupState := ⟨false, false, false⟩

/-- C7 counterexample.  After opening a persistent popup by clicking a
sample and then hovering a toll circle, both the persistent popup and a
hover popup are open at once — a transient popup is shown while a
persistent one is open.  And after closing the persistent popup,
hovering a sample shows no popup: the click ref was never cleared, so
closing does not re-enable hover popups. -/
theorem popup_exclusivity_counterexample :
    ((runPopup initialPopupState [PopupEv.clickSample, PopupEv.hoverToll]).clickOpen = true ∧
     (runPopup initialPopupState [PopupEv.clickSample, PopupEv.hoverToll]).hoverOpen = true) ∧
    (runPopup initialPopupState
      [PopupEv.clickSample, PopupEv.closePersistent, PopupEv.hoverSample]).hoverOpen = false := by
  refine ⟨⟨rfl, rfl⟩, rfl⟩

/-- C7 amended.  Popup exclusivity holds only partially: opening the
persistent popup closes any transient popup, and a samples hover popup is
suppressed whenever `clickPopupRef` is set (which also means closing the
persistent popup does not re-enable samples hovers, since no handler
clears the ref); toll, accident and signal hover popups are shown
regardless of the persistent popup. -/
theorem popup_exclusivity_samples_only (s : PopupState) :
    (stepPopup s PopupEv.clickSample).hoverOpen = false ∧
    (s.clickRef = true → stepPopup s PopupEv.hoverSample = s) ∧
    (stepPopup s PopupEv.hoverToll).hoverOpen = true ∧
    (stepPopup s PopupEv.closePersistent).clickRef = s.clickRef := by
  refine ⟨rfl, fun h => ?_, rfl, rfl⟩
  simp [stepPopup, h]

/-- Witness for C7's amended statement at the state holding an open
persistent popup. -/
theorem popup_exclusivity_samples_only_witness :
    (stepPopup ⟨true, true, false⟩ PopupEv.clickSample).hoverOpen = false ∧
    stepPopup ⟨true, true, false⟩ PopupEv.hoverSample = ⟨true, true, false⟩ ∧
    (stepPopup ⟨true, true, false⟩ PopupEv.hoverToll).hoverOpen = true :=
  ⟨(popup_exclusivity_samples_only ⟨true, true, false⟩).1,
   (popup_exclusivity_samples_only ⟨true, true, false⟩).2.1 rfl,
   (popup_exclusivity_samples_only ⟨true, true, false⟩).2.2.1⟩

/- ───────────────────────── Phase simulator driver ───────────────────────── -/

/-- The state captured by an active run of the `useEffect` in
`TrafficLightPopup.tsx`: the signal's durations and the mutable `elapsed`
counter. -/
structure SimDriver where
  green_duration : Nat
  yellow_duration : Nat
  red_duration : Nat
  elapsed : Nat
deriving DecidableEq, Repr

/-- Events of the effect lifecycle.  `activate g y r off` is an effect
run with a visible in-range signal: `off` stands for the draw of
`Math.floor(Math.random() * totalCycle)`, which lies in `[0, cycle)`
whenever the cycle is positive.  `deactivate` is the effect run with
`!signal || !visible` (or the cleanup on unmount): it clears the
interval.  `tick` is the 1-second interval callback. -/
inductive SimEv where
  | activate (g y r off : Nat)
  | deactivate
  | tick

/-- The `setPhase`/`setCountdown` pair a driver emits. -/
def simEmit (dr : SimDriver) : LightPhase × Nat :=
  getPhaseAndRemaining dr.green_duration dr.yellow_duration dr.red_duration dr.elapsed

/-- One lifecycle step.  Activation replaces whatever driver existed
(React runs the previous effect's cleanup first) and emits the initial
phase; deactivation clears the interval, discarding the driver and its
elapsed counter; a tick with no driver emits nothing, a tick with a
driver increments `elapsed` by exactly 1 and emits. -/
def stepSim (s : Option SimDriver) : SimEv → Option SimDriver × List (LightPhase × Nat)
  | SimEv.activate g y r off => (some ⟨g, y, r, off⟩, [simEmit ⟨g, y, r, off⟩])
  | SimEv.deactivate => (none, [])
  | SimEv.tick =>
    match s with
    | none => (none, [])
    | some dr =>
      (some ⟨dr.green_duration, dr.yellow_duration, dr.red_duration, dr.elapsed + 1⟩,
       [simEmit ⟨dr.green_duration, dr.yellow_duration, dr.red_duration, dr.elapsed + 1⟩])

/-- Run a sequence of lifecycle events, collecting emissions. -/
def runSim (s : Option SimDriver) : List SimEv → Option SimDriver × List (LightPhase × Nat)
  | [] => (s, [])
  | e :: es =>
    let st := stepSim s e
    let rest := runSim st.1 es
    (rest.1, st.2 ++ rest.2)

lemma ticks_from_none (n : Nat) :
    runSim none (List.replicate n SimEv.tick) = (none, []) := by
  induction n with
  | zero => rfl
  | succ k ih => simp [List.replicate_succ, runSim, stepSim, ih]

/-- C9.  Deactivating the phase simulator clears the tick driver and
discards all simulator state: no phase/countdown emission occurs on any
number of later ticks; a later activation builds its driver from its own
parameters alone — the same driver regardless of the prior state — and
its initial elapsed offset is exactly the freshly drawn `off`, which
lies in `[0, cycle)`. -/
theorem deactivation_stops_ticks (s s2 : Option SimDriver) (g y r off n : Nat)
    (hoff : off < g + y + r) :
    stepSim s SimEv.deactivate = (none, []) ∧
    runSim (stepSim s SimEv.deactivate).1 (List.replicate n SimEv.tick) = (none, []) ∧
    stepSim s (SimEv.activate g y r off) = stepSim s2 (SimEv.activate g y r off) ∧
    (stepSim s (SimEv.activate g y r off)).1 = some ⟨g, y, r, off⟩ ∧
    (∀ dr, (stepSim s (SimEv.activate g y r off)).1 = some dr → dr.elapsed < g + y + r) := by
  refine ⟨rfl, ticks_from_none n, rfl, rfl, ?_⟩
  intro dr h
  obtain rfl : (⟨g, y, r, off⟩ : SimDriver) = dr := Option.some.inj h
  exact hoff

/-- Witness for C9 at durations (30,5,25), offset 7, three ticks. -/
theorem deactivation_stops_ticks_witness :
    stepSim none SimEv.deactivate = (none, []) ∧
    runSim (stepSim none SimEv.deactivate).1 (List.replicate 3 SimEv.tick) = (none, []) ∧
    (stepSim none (SimEv.activate 30 5 25 7)).1 = some ⟨30, 5, 25, 7⟩ :=
  ⟨(deactivation_stops_ticks none none 30 5 25 7 3 (by decide)).1,
   (deactivation_stops_ticks none none 30 5 25 7 3 (by decide)).2.1,
   (deactivation_stops_ticks none none 30 5 25 7 3 (by decide)).2.2.2.1⟩
